import Mathlib

/-!
Verification development for the mozilla::pkix certificate name-matching
subsystem (lib/mozpkix/lib/pkixnames.cpp).

Byte strings are modelled as `List Nat` (each entry one octet). Readers are
modelled functionally: a function consumes a prefix of the list and returns
the parsed item together with the remaining bytes. Loops whose iterations
consume at least one byte are written with an explicit fuel argument that the
entry points instantiate with `length + 1`, which is always sufficient.
-/

/-- Error kinds returned by the subsystem (Result values in the source). -/
inductive Err where
  | BadDer
  | BadCertDomain
  | NotInNameSpace
  | FatalLibraryFailure
  | FatalInvalidArgs
deriving DecidableEq, Repr

instance {ε α : Type} [DecidableEq ε] [DecidableEq α] : DecidableEq (Except ε α) := fun a b =>
  match a, b with
  | Except.error e1, Except.error e2 =>
    if h : e1 = e2 then isTrue (by rw [h]) else isFalse (by intro hc; cases hc; exact h rfl)
  | Except.error _, Except.ok _ => isFalse (by intro hc; cases hc)
  | Except.ok _, Except.error _ => isFalse (by intro hc; cases hc)
  | Except.ok v1, Except.ok v2 =>
    if h : v1 = v2 then isTrue (by rw [h]) else isFalse (by intro hc; cases hc; exact h rfl)

/-- GeneralName choice discriminants, plus the internal nameConstraints
sentinel (pkixnames.cpp, GeneralNameType). -/
inductive GeneralNameType where
  | otherName
  | rfc822Name
  | dNSName
  | x400Address
  | directoryName
  | ediPartyName
  | uniformResourceIdentifier
  | iPAddress
  | registeredID
  | nameConstraints
deriving DecidableEq, Repr

/-- Three-valued match state (pkixnames.cpp, MatchResult). -/
inductive MatchResult where
  | NoNamesOfGivenType
  | Mismatch
  | Match
deriving DecidableEq, Repr

/-- DNS-ID validity / matching mode (pkixnames.cpp, ValidDNSIDMatchType). -/
inductive ValidDNSIDMatchType where
  | ReferenceID
  | PresentedID
  | NameConstraint
deriving DecidableEq, Repr

/-- The two name-constraint subtree lists (pkixnames.cpp,
NameConstraintsSubtrees). -/
inductive NameConstraintsSubtrees where
  | permittedSubtrees
  | excludedSubtrees
deriving DecidableEq, Repr

/-- Modelled from the spec: the DER reader (spec section 4.1) is in
pkixder.h/.cpp, which is not part of the visible source. This reads one
tag-length-value: one tag byte, then a definite DER length (short form, or
long form of one or two length bytes, minimally encoded, at most 65535 as the
spec bounds inputs), then that many value bytes. Returns
(tag, value, remaining bytes). -/
def derReadTLV (bs : List Nat) : Option (Nat × List Nat × List Nat) :=
  match bs with
  | t :: l :: rest =>
    if l < 128 then
      if rest.length < l then none
      else some (t, rest.take l, rest.drop l)
    else if l = 129 then
      match rest with
      | n :: rest2 =>
        if n < 128 then none
        else if rest2.length < n then none
        else some (t, rest2.take n, rest2.drop n)
      | [] => none
    else if l = 130 then
      match rest with
      | hi :: lo :: rest2 =>
        let n := hi * 256 + lo
        if n < 256 then none
        else if rest2.length < n then none
        else some (t, rest2.take n, rest2.drop n)
      | _ => none
    else none
  | _ => none

/-- Modelled from the spec: ExpectTagAndGetValue from the DER reader (spec
section 4.1): read one TLV and require the given tag. -/
def expectTagAndGetValue (bs : List Nat) (tag : Nat) : Option (List Nat × List Nat) :=
  match derReadTLV bs with
  | some (t, v, rest) => if t = tag then some (v, rest) else none
  | none => none

/-- Modelled from the spec: ExpectTagAndGetValueAtEnd from the DER reader:
read one TLV with the given tag and require that it spans the whole input. -/
def expectTagAndGetValueAtEnd (bs : List Nat) (tag : Nat) : Option (List Nat) :=
  match expectTagAndGetValue bs tag with
  | some (v, rest) => if rest = [] then some v else none
  | none => none

/-- State of the character scan inside IsValidDNSID. -/
structure DNSState where
  dotCount : Nat
  labelLength : Nat
  labelIsAllNumeric : Bool
  labelEndsWithHyphen : Bool
  isFirstByte : Bool
deriving DecidableEq, Repr

/-- One step of the character loop of IsValidDNSID (pkixnames.cpp lines
1596-1674). `ncMode` is true when the match type is NameConstraint; it only
affects whether a leading dot is allowed. Byte values: 45 is the hyphen,
46 the dot, 48-57 the digits, 65-90 and 97-122 the ASCII letters. -/
def dnsCharStep (ncMode : Bool) (b : Nat) (st : DNSState) : Option DNSState :=
  if b = 45 then
    if st.labelLength = 0 then none
    else if 63 < st.labelLength + 1 then none
    else some { st with labelIsAllNumeric := false, labelEndsWithHyphen := true,
                        labelLength := st.labelLength + 1, isFirstByte := false }
  else if 48 ≤ b ∧ b ≤ 57 then
    if 63 < st.labelLength + 1 then none
    else some { st with labelIsAllNumeric := if st.labelLength = 0 then true else st.labelIsAllNumeric,
                        labelEndsWithHyphen := false,
                        labelLength := st.labelLength + 1, isFirstByte := false }
  else if (65 ≤ b ∧ b ≤ 90) ∨ (97 ≤ b ∧ b ≤ 122) then
    if 63 < st.labelLength + 1 then none
    else some { st with labelIsAllNumeric := false, labelEndsWithHyphen := false,
                        labelLength := st.labelLength + 1, isFirstByte := false }
  else if b = 46 then
    if st.labelLength = 0 ∧ (¬ ncMode ∨ ¬ st.isFirstByte) then none
    else if st.labelEndsWithHyphen then none
    else some { st with dotCount := st.dotCount + 1, labelLength := 0, isFirstByte := false }
  else none

/-- The character loop of IsValidDNSID, folding dnsCharStep over the bytes. -/
def dnsCharLoop (ncMode : Bool) : List Nat → DNSState → Option DNSState
  | [], st => some st
  | b :: bs, st =>
    match dnsCharStep ncMode b st with
    | none => none
    | some st2 => dnsCharLoop ncMode bs st2

/-- StartsWithIDNALabel (pkixnames.cpp lines 1280-1295): the first four bytes
are the A-label marker xn-- (120, 110, 45, 45). -/
def StartsWithIDNALabel (id : List Nat) : Bool :=
  match id with
  | 120 :: 110 :: 45 :: 45 :: _ => true
  | _ => false

/-- The checks performed after the character loop of IsValidDNSID
(pkixnames.cpp lines 1676-1714). -/
def dnsTailChecks (hostname : List Nat) (isWildcard : Bool) (stF : DNSState)
    (matchType : ValidDNSIDMatchType) : Bool :=
  if stF.labelLength = 0 ∧ matchType ≠ ValidDNSIDMatchType.ReferenceID then false
  else if stF.labelEndsWithHyphen then false
  else if stF.labelIsAllNumeric then false
  else if isWildcard then
    if (if stF.labelLength = 0 then stF.dotCount else stF.dotCount + 1) < 3 then false
    else if StartsWithIDNALabel hostname then false
    else true
  else true

/-- Run the character loop (which requires at least one byte, mirroring the
do-while) and then the final checks. -/
def dnsTail (hostname : List Nat) (isWildcard : Bool) (bs : List Nat) (st : DNSState)
    (matchType : ValidDNSIDMatchType) : Bool :=
  match bs with
  | [] => false
  | _ :: _ =>
    match dnsCharLoop (decide (matchType = ValidDNSIDMatchType.NameConstraint)) bs st with
    | none => false
    | some stF => dnsTailChecks hostname isWildcard stF matchType

/-- IsValidDNSID (pkixnames.cpp lines 1554-1715). 42 is the asterisk byte,
46 the dot. -/
def IsValidDNSID (hostname : List Nat) (matchType : ValidDNSIDMatchType) : Bool :=
  if 253 < hostname.length then false
  else if matchType = ValidDNSIDMatchType.NameConstraint ∧ hostname = [] then true
  else if matchType = ValidDNSIDMatchType.PresentedID ∧ hostname.head? = some 42 then
    match hostname with
    | _ :: 46 :: rest =>
      dnsTail hostname true rest
        { dotCount := 1, labelLength := 0, labelIsAllNumeric := false,
          labelEndsWithHyphen := false, isFirstByte := false } matchType
    | _ => false
  else
    dnsTail hostname false hostname
      { dotCount := 0, labelLength := 0, labelIsAllNumeric := false,
        labelEndsWithHyphen := false, isFirstByte := true } matchType

/-- IsValidReferenceDNSID (pkixnames.cpp lines 1540-1544). -/
def IsValidReferenceDNSID (hostname : List Nat) : Bool :=
  IsValidDNSID hostname ValidDNSIDMatchType.ReferenceID

/-- IsValidPresentedDNSID (pkixnames.cpp lines 1546-1550). -/
def IsValidPresentedDNSID (hostname : List Nat) : Bool :=
  IsValidDNSID hostname ValidDNSIDMatchType.PresentedID

/-- LocaleInsensitveToLower (pkixnames.cpp lines 1269-1278, name kept from the
source): ASCII uppercase letters map to lowercase, all other bytes unchanged. -/
def LocaleInsensitveToLower (a : Nat) : Nat :=
  if 65 ≤ a ∧ a ≤ 90 then a - 65 + 97 else a

/-- The handling of leftover reference bytes after the presented ID is
exhausted (pkixnames.cpp lines 1085-1098): a single trailing dot is accepted
unless matching a name constraint. -/
def dnsMatchRefTail (rs : List Nat) (t : ValidDNSIDMatchType) : Bool :=
  match rs with
  | [] => true
  | r :: rest =>
    if t = ValidDNSIDMatchType.NameConstraint then false
    else if r ≠ 46 then false
    else if rest ≠ [] then false
    else true

/-- The byte-comparison loop of PresentedDNSIDMatchesReferenceDNSID
(pkixnames.cpp lines 1061-1081): compare both cursors byte by byte with
ASCII lowercasing; when the presented ID is exhausted its last byte must not
be a dot; then handle leftover reference bytes. -/
def dnsMatchLoop : List Nat → List Nat → ValidDNSIDMatchType → Bool
  | [], _, _ => false
  | _ :: _, [], _ => false
  | p :: ps, r :: rs, t =>
    if LocaleInsensitveToLower p ≠ LocaleInsensitveToLower r then false
    else if ps = [] then
      if p = 46 then false else dnsMatchRefTail rs t
    else dnsMatchLoop ps rs t

/-- The wildcard consumption of the reference cursor (pkixnames.cpp lines
1053-1058): consume at least one reference byte until the byte about to be
read is a dot; fail if the reference is exhausted first. -/
def dnsWildcardSkip : List Nat → Option (List Nat)
  | [] => none
  | _ :: rest => if rest.head? = some 46 then some rest else dnsWildcardSkip rest

/-- The wildcard handling plus comparison loop, applied after the mode
specific alignment (pkixnames.cpp lines 1047-1100). -/
def dnsMatchTail (p r : List Nat) (t : ValidDNSIDMatchType) : Bool :=
  match p with
  | 42 :: ps =>
    match dnsWildcardSkip r with
    | none => false
    | some r2 => dnsMatchLoop ps r2 t
  | _ => dnsMatchLoop p r t

/-- The NameConstraint-mode alignment of PresentedDNSIDMatchesReferenceDNSID
(pkixnames.cpp lines 983-1038) followed by the shared wildcard handling and
comparison loop: a strictly longer presented ID is aligned to the
constraint (an empty constraint matches everything; a constraint without a
leading dot additionally requires a dot on the presented side just before
the aligned suffix). -/
def dnsMatchNameConstraint (presentedDNSID referenceDNSID : List Nat) : Bool :=
  if referenceDNSID.length < presentedDNSID.length then
    if referenceDNSID.length = 0 then true
    else if referenceDNSID.head? = some 46 then
      dnsMatchTail (presentedDNSID.drop (presentedDNSID.length - referenceDNSID.length))
        referenceDNSID ValidDNSIDMatchType.NameConstraint
    else
      match presentedDNSID.drop (presentedDNSID.length - referenceDNSID.length - 1) with
      | 46 :: rest => dnsMatchTail rest referenceDNSID ValidDNSIDMatchType.NameConstraint
      | _ => false
  else dnsMatchTail presentedDNSID referenceDNSID ValidDNSIDMatchType.NameConstraint

/-- PresentedDNSIDMatchesReferenceDNSID (pkixnames.cpp lines 961-1101):
both identifiers are validated first, then the mode-specific matching
runs. -/
def PresentedDNSIDMatchesReferenceDNSID (presentedDNSID : List Nat)
    (referenceDNSIDMatchType : ValidDNSIDMatchType) (referenceDNSID : List Nat) : Bool :=
  if ¬ IsValidPresentedDNSID presentedDNSID then false
  else if ¬ IsValidDNSID referenceDNSID referenceDNSIDMatchType then false
  else
    match referenceDNSIDMatchType with
    | ValidDNSIDMatchType.PresentedID => false
    | ValidDNSIDMatchType.ReferenceID =>
      dnsMatchTail presentedDNSID referenceDNSID ValidDNSIDMatchType.ReferenceID
    | ValidDNSIDMatchType.NameConstraint =>
      dnsMatchNameConstraint presentedDNSID referenceDNSID

/-- ReadIPv4AddressComponent (pkixnames.cpp lines 1297-1336): read decimal
digits accumulating a value of at most 255, rejecting leading zeros; a
non-final component stops at a dot, the final component must run to the end
of the input. Returns the component value and the remaining bytes. -/
def ReadIPv4AddressComponent (lastComponent : Bool) : List Nat → Nat → Nat → Option (Nat × List Nat)
  | [], value, length =>
    if lastComponent then
      if length = 0 then none else some (value, [])
    else none
  | b :: rest, value, length =>
    if 48 ≤ b ∧ b ≤ 57 then
      if value = 0 ∧ 0 < length then none
      else
        let v2 := value * 10 + (b - 48)
        if 255 < v2 then none
        else ReadIPv4AddressComponent lastComponent rest v2 (length + 1)
    else if ¬ lastComponent ∧ b = 46 then
      if length = 0 then none else some (value, rest)
    else none

/-- ParseIPv4Address (pkixnames.cpp lines 1343-1351): four components, the
last running to the end of the input; returns the 4 octets. -/
def ParseIPv4Address (hostname : List Nat) : Option (List Nat) :=
  match ReadIPv4AddressComponent false hostname 0 0 with
  | none => none
  | some (c1, r1) =>
    match ReadIPv4AddressComponent false r1 0 0 with
    | none => none
    | some (c2, r2) =>
      match ReadIPv4AddressComponent false r2 0 0 with
      | none => none
      | some (c3, r3) =>
        match ReadIPv4AddressComponent true r3 0 0 with
        | none => none
        | some (c4, _) => some [c1, c2, c3, c4]

/-- FinishIPv6Address (pkixnames.cpp lines 1355-1391), with the partially
filled 16-byte buffer represented as the list of 16-bit components parsed so
far: without a contraction exactly 8 components are required; with one, fewer
than 8, and zeros are inserted at the contraction point. Returns the 16
octets. -/
def FinishIPv6Address (components : List Nat) (contractionIndex : Option Nat) : Option (List Nat) :=
  match contractionIndex with
  | none =>
    if components.length = 8 then
      some (components.foldr (fun c acc => c / 256 :: c % 256 :: acc) [])
    else none
  | some ci =>
    if 8 ≤ components.length then none
    else
      some ((components.take ci ++ List.replicate (8 - components.length) 0 ++
             components.drop ci).foldr (fun c acc => c / 256 :: c % 256 :: acc) [])

/-- Result of scanning one IPv6 component: hex digits accumulated up to the
next colon or the end, a dot (triggering IPv4 re-parsing), or an invalid
byte / overlong component. -/
inductive HexCompResult where
  | hexOk (value : Nat) (length : Nat) (rest : List Nat)
  | dotSeen
  | bad
deriving DecidableEq, Repr

/-- The inner while loop of ParseIPv6Address (pkixnames.cpp lines 1429-1484):
scan hex digits of one component, stopping before a colon (58), reporting a
dot (46), and rejecting components longer than four digits. -/
def readHexComp : List Nat → Nat → Nat → HexCompResult
  | [], value, length => HexCompResult.hexOk value length []
  | b :: rest, value, length =>
    if b = 58 then HexCompResult.hexOk value length (b :: rest)
    else if 48 ≤ b ∧ b ≤ 57 then
      if 4 ≤ length then HexCompResult.bad
      else readHexComp rest (value * 16 + (b - 48)) (length + 1)
    else if 97 ≤ b ∧ b ≤ 102 then
      if 4 ≤ length then HexCompResult.bad
      else readHexComp rest (value * 16 + (b - 97 + 10)) (length + 1)
    else if 65 ≤ b ∧ b ≤ 70 then
      if 4 ≤ length then HexCompResult.bad
      else readHexComp rest (value * 16 + (b - 65 + 10)) (length + 1)
    else if b = 46 then HexCompResult.dotSeen
    else HexCompResult.bad

/-- The outer loop of ParseIPv6Address (pkixnames.cpp lines 1423-1537). The
current component index of the source is the length of `comps`. Each
recursive call consumes at least one input byte, so fuel of the input length
plus one never runs out. -/
def parseIPv6Loop : Nat → List Nat → List Nat → Option Nat → Option (List Nat)
  | 0, _, _, _ => none
  | fuel + 1, input, comps, ci =>
    match readHexComp input 0 0 with
    | HexCompResult.bad => none
    | HexCompResult.dotSeen =>
      if 6 < comps.length then none
      else
        match ParseIPv4Address input with
        | some [b0, b1, b2, b3] =>
          FinishIPv6Address (comps ++ [b0 * 256 + b1, b2 * 256 + b3]) ci
        | _ => none
    | HexCompResult.hexOk value length rest =>
      if 8 ≤ comps.length then none
      else if length = 0 then
        if rest = [] ∧ ci = some comps.length then
          if comps.length = 0 then none
          else FinishIPv6Address comps ci
        else none
      else
        match rest with
        | [] => FinishIPv6Address (comps ++ [value]) ci
        | 58 :: rest2 =>
          if rest2.head? = some 58 then
            match ci with
            | some _ => none
            | none =>
              match rest2 with
              | _ :: rest3 =>
                if rest3 = [] then
                  FinishIPv6Address (comps ++ [value]) (some (comps ++ [value]).length)
                else
                  parseIPv6Loop fuel rest3 (comps ++ [value]) (some (comps ++ [value]).length)
              | [] => none
          else parseIPv6Loop fuel rest2 (comps ++ [value]) ci
        | _ :: _ => none

/-- ParseIPv6Address (pkixnames.cpp lines 1398-1538): an input starting with
a colon must start with the double-colon contraction. -/
def ParseIPv6Address (hostname : List Nat) : Option (List Nat) :=
  match hostname with
  | 58 :: rest =>
    match rest with
    | 58 :: rest2 => parseIPv6Loop (rest2.length + 1) rest2 [] (some 0)
    | _ => none
  | _ => parseIPv6Loop (hostname.length + 1) hostname [] none

/-- ReadGeneralName (pkixnames.cpp lines 73-115): read one TLV and classify
its tag byte as one of the nine GeneralName choices; the tag values carry the
CONTEXT_SPECIFIC bit (128), and directoryName also the CONSTRUCTED bit (32).
Returns the type, the value bytes and the remaining bytes. -/
def ReadGeneralName (bs : List Nat) : Except Err (GeneralNameType × List Nat × List Nat) :=
  match derReadTLV bs with
  | none => Except.error Err.BadDer
  | some (tag, value, rest) =>
    if tag = 128 then Except.ok (GeneralNameType.otherName, value, rest)
    else if tag = 129 then Except.ok (GeneralNameType.rfc822Name, value, rest)
    else if tag = 130 then Except.ok (GeneralNameType.dNSName, value, rest)
    else if tag = 131 then Except.ok (GeneralNameType.x400Address, value, rest)
    else if tag = 164 then Except.ok (GeneralNameType.directoryName, value, rest)
    else if tag = 133 then Except.ok (GeneralNameType.ediPartyName, value, rest)
    else if tag = 134 then Except.ok (GeneralNameType.uniformResourceIdentifier, value, rest)
    else if tag = 135 then Except.ok (GeneralNameType.iPAddress, value, rest)
    else if tag = 136 then Except.ok (GeneralNameType.registeredID, value, rest)
    else Except.error Err.BadDer

/-- MatchPresentedIDWithReferenceID (pkixnames.cpp lines 605-640): dNSName
uses the DNS matcher in ReferenceID mode, iPAddress uses byte equality, every
other type is a programming error. -/
def MatchPresentedIDWithReferenceID (nameType : GeneralNameType)
    (presentedID referenceID : List Nat) : Except Err Bool :=
  match nameType with
  | GeneralNameType.dNSName =>
    Except.ok (PresentedDNSIDMatchesReferenceDNSID presentedID
                 ValidDNSIDMatchType.ReferenceID referenceID)
  | GeneralNameType.iPAddress =>
    Except.ok (decide (presentedID = referenceID))
  | _ => Except.error Err.FatalInvalidArgs

/-- The byte loop of MatchPresentedIPAddressWithConstraint (pkixnames.cpp
lines 1148-1167): for each presented byte the xor with the constraint address
byte masked by the constraint mask byte must be zero; the loop stops at the
first nonzero result or when the presented bytes are exhausted. -/
def ipMatchLoop : List Nat → List Nat → List Nat → Except Err Bool
  | [], _, _ => Except.error Err.BadDer
  | p :: ps, as2, ms =>
    match as2, ms with
    | a :: rest1, m :: rest2 =>
      if ((p ^^^ a) &&& m) = 0 then
        if ps = [] then Except.ok true
        else ipMatchLoop ps rest1 rest2
      else Except.ok false
    | _, _ => Except.error Err.BadDer

/-- MatchPresentedIPAddressWithConstraint (pkixnames.cpp lines 1112-1170):
the presented address must be 4 or 16 bytes, the constraint 8 or 32; a
v4/v6 length-family mismatch reports no match with Success; otherwise the
constraint splits into an address half and a mask half and the bytes are
tested by ipMatchLoop. -/
def MatchPresentedIPAddressWithConstraint (presentedID iPAddressConstraint : List Nat) :
    Except Err Bool :=
  if presentedID.length ≠ 4 ∧ presentedID.length ≠ 16 then Except.error Err.BadDer
  else if iPAddressConstraint.length ≠ 8 ∧ iPAddressConstraint.length ≠ 32 then
    Except.error Err.BadDer
  else if presentedID.length * 2 ≠ iPAddressConstraint.length then Except.ok false
  else
    ipMatchLoop presentedID
      (iPAddressConstraint.take (iPAddressConstraint.length / 2))
      (iPAddressConstraint.drop (iPAddressConstraint.length / 2))

/-- The RDN prefix loop of MatchPresentedDirectoryNameWithConstraint
(pkixnames.cpp lines 1239-1264): every constraint RDN (a SET, tag 49) must be
byte-equal to the same-position presented RDN; the constraint must be
exhausted for a match. Fuel decreases on each iteration; the entry point
passes enough for the constraint length. -/
def dirNameMatchLoop : Nat → List Nat → List Nat → Except Err Bool
  | 0, _, _ => Except.error Err.BadDer
  | fuel + 1, constraintRDNs, presentedRDNs =>
    if constraintRDNs = [] then Except.ok true
    else if presentedRDNs = [] then Except.ok false
    else
      match expectTagAndGetValue constraintRDNs 49 with
      | none => Except.error Err.BadDer
      | some (constraintRDN, cRest) =>
        match expectTagAndGetValue presentedRDNs 49 with
        | none => Except.error Err.BadDer
        | some (presentedRDN, pRest) =>
          if constraintRDN ≠ presentedRDN then Except.ok false
          else dirNameMatchLoop fuel cRest pRest

/-- MatchPresentedDirectoryNameWithConstraint (pkixnames.cpp lines 1207-1265):
both names are SEQUENCEs (tag 48) of RDNs; for permitted subtrees the
constraint RDNs must be a byte-equal prefix of the presented RDNs; for
excluded subtrees only an empty constraint over an empty presented name is
accepted, and any other combination rejects the chain outright. -/
def MatchPresentedDirectoryNameWithConstraint (subtreesType : NameConstraintsSubtrees)
    (presentedID directoryNameConstraint : List Nat) : Except Err Bool :=
  match expectTagAndGetValueAtEnd directoryNameConstraint 48 with
  | none => Except.error Err.BadDer
  | some constraintRDNs =>
    match expectTagAndGetValueAtEnd presentedID 48 with
    | none => Except.error Err.BadDer
    | some presentedRDNs =>
      match subtreesType with
      | NameConstraintsSubtrees.excludedSubtrees =>
        if constraintRDNs ≠ [] ∨ presentedRDNs ≠ [] then Except.error Err.NotInNameSpace
        else Except.ok true
      | NameConstraintsSubtrees.permittedSubtrees =>
        dirNameMatchLoop (constraintRDNs.length + 1) constraintRDNs presentedRDNs

/-- The context-specific tag of a subtree list: permittedSubtrees is [0]
constructed (160), excludedSubtrees is [1] constructed (161). -/
def subtreesTag : NameConstraintsSubtrees → Nat
  | NameConstraintsSubtrees.permittedSubtrees => 160
  | NameConstraintsSubtrees.excludedSubtrees => 161

/-- The per-type matching inside the GeneralSubtree loop (pkixnames.cpp lines
753-809): returns whether the presented ID matches the constraint base, or an
error. rfc822Name constraints are unimplemented (fatal error); the remaining
name forms of equal type are conservatively rejected. -/
def subtreeMatches (presentedIDType : GeneralNameType) (presentedID : List Nat)
    (subtreesType : NameConstraintsSubtrees) (base : List Nat) : Except Err Bool :=
  match presentedIDType with
  | GeneralNameType.dNSName =>
    let isM := PresentedDNSIDMatchesReferenceDNSID presentedID
                 ValidDNSIDMatchType.NameConstraint base
    if ¬ isM ∧ ¬ IsValidDNSID base ValidDNSIDMatchType.NameConstraint then
      Except.error Err.NotInNameSpace
    else Except.ok isM
  | GeneralNameType.iPAddress =>
    MatchPresentedIPAddressWithConstraint presentedID base
  | GeneralNameType.directoryName =>
    MatchPresentedDirectoryNameWithConstraint subtreesType presentedID base
  | GeneralNameType.rfc822Name => Except.error Err.FatalLibraryFailure
  | GeneralNameType.otherName => Except.error Err.NotInNameSpace
  | GeneralNameType.x400Address => Except.error Err.NotInNameSpace
  | GeneralNameType.ediPartyName => Except.error Err.NotInNameSpace
  | GeneralNameType.uniformResourceIdentifier => Except.error Err.NotInNameSpace
  | GeneralNameType.registeredID => Except.error Err.NotInNameSpace
  | GeneralNameType.nameConstraints => Except.error Err.FatalLibraryFailure

/-- The GeneralSubtree iteration of
CheckPresentedIDConformsToNameConstraintsSubtrees (pkixnames.cpp lines
722-829): each subtree is a SEQUENCE holding exactly one GeneralName (no
minimum or maximum field); entries whose type differs from the presented type
are skipped; on a type match the appropriate matcher runs, permitted subtrees
accumulate match/mismatch flags, and any excluded match rejects immediately.
Returns the two permitted-subtree flags. -/
def subtreesLoop : Nat → GeneralNameType → List Nat → NameConstraintsSubtrees →
    List Nat → Bool → Bool → Except Err (Bool × Bool)
  | 0, _, _, _, _, _, _ => Except.error Err.BadDer
  | fuel + 1, presentedIDType, presentedID, subtreesType, subtrees, hasMatch, hasMismatch =>
    match expectTagAndGetValue subtrees 48 with
    | none => Except.error Err.BadDer
    | some (subtree, rest) =>
      match ReadGeneralName subtree with
      | Except.error e => Except.error e
      | Except.ok (nameConstraintType, base, after) =>
        if after ≠ [] then Except.error Err.BadDer
        else if presentedIDType = nameConstraintType then
          match subtreeMatches presentedIDType presentedID subtreesType base with
          | Except.error e => Except.error e
          | Except.ok isM =>
            match subtreesType with
            | NameConstraintsSubtrees.permittedSubtrees =>
              let hasMatch2 := if isM then true else hasMatch
              let hasMismatch2 := if isM then hasMismatch else true
              if rest = [] then Except.ok (hasMatch2, hasMismatch2)
              else subtreesLoop fuel presentedIDType presentedID subtreesType rest
                     hasMatch2 hasMismatch2
            | NameConstraintsSubtrees.excludedSubtrees =>
              if isM then Except.error Err.NotInNameSpace
              else if rest = [] then Except.ok (hasMatch, hasMismatch)
              else subtreesLoop fuel presentedIDType presentedID subtreesType rest
                     hasMatch hasMismatch
        else if rest = [] then Except.ok (hasMatch, hasMismatch)
        else subtreesLoop fuel presentedIDType presentedID subtreesType rest hasMatch hasMismatch

/-- CheckPresentedIDConformsToNameConstraintsSubtrees (pkixnames.cpp lines
700-839): if the next TLV is not the requested subtree list the check
succeeds without consuming anything; otherwise the subtree list is iterated
and, for permitted subtrees, a mismatch without any match rejects. Returns
the name-constraints bytes remaining after the subtree list. -/
def CheckPresentedIDConformsToNameConstraintsSubtrees (presentedIDType : GeneralNameType)
    (presentedID : List Nat) (nameConstraints : List Nat)
    (subtreesType : NameConstraintsSubtrees) : Except Err (List Nat) :=
  if nameConstraints.head? ≠ some (subtreesTag subtreesType) then Except.ok nameConstraints
  else
    match expectTagAndGetValue nameConstraints (subtreesTag subtreesType) with
    | none => Except.error Err.BadDer
    | some (subtrees, rest) =>
      match subtreesLoop (subtrees.length + 1) presentedIDType presentedID subtreesType
              subtrees false false with
      | Except.error e => Except.error e
      | Except.ok (hasMatch, hasMismatch) =>
        if hasMismatch ∧ ¬ hasMatch then Except.error Err.NotInNameSpace
        else Except.ok rest

/-- CheckPresentedIDConformsToConstraints (pkixnames.cpp lines 660-698): the
extension value is a SEQUENCE that must not be empty; the permitted subtrees
are checked first, then the excluded subtrees, then the value must be fully
consumed. -/
def CheckPresentedIDConformsToConstraints (presentedIDType : GeneralNameType)
    (presentedID : List Nat) (encodedNameConstraints : List Nat) : Except Err Unit :=
  match expectTagAndGetValueAtEnd encodedNameConstraints 48 with
  | none => Except.error Err.BadDer
  | some nameConstraints =>
    if nameConstraints = [] then Except.error Err.BadDer
    else
      match CheckPresentedIDConformsToNameConstraintsSubtrees presentedIDType presentedID
              nameConstraints NameConstraintsSubtrees.permittedSubtrees with
      | Except.error e => Except.error e
      | Except.ok nc2 =>
        match CheckPresentedIDConformsToNameConstraintsSubtrees presentedIDType presentedID
                nc2 NameConstraintsSubtrees.excludedSubtrees with
        | Except.error e => Except.error e
        | Except.ok nc3 =>
          if nc3 = [] then Except.ok () else Except.error Err.BadDer

/-- SearchWithinAVA (pkixnames.cpp lines 479-603): one AttributeTypeAndValue.
A non-commonName attribute (OID other than 2.5.4.3, bytes 85 4 3) leaves the
match state untouched. A commonName first resets the state to
NoNamesOfGivenType, then accepts only PrintableString (19), UTF8String (12)
or TeletexString (20) values; a valid presented DNS-ID value is matched as a
dNSName, otherwise an IPv4 literal value is matched as an iPAddress; in
constraint mode the constraint check result is folded into Match/Mismatch.
The enclosing der::Nested requires the AVA to be fully consumed. -/
def SearchWithinAVA (ava : List Nat) (referenceIDType : GeneralNameType)
    (referenceID : List Nat) (mr : MatchResult) : Except Err MatchResult :=
  match expectTagAndGetValue ava 6 with
  | none => Except.error Err.BadDer
  | some (typeOID, rest) =>
    if typeOID ≠ [85, 4, 3] then Except.ok mr
    else
      match derReadTLV rest with
      | none => Except.error Err.BadDer
      | some (valueEncodingTag, presentedID, rest2) =>
        if rest2 ≠ [] then Except.error Err.BadDer
        else if valueEncodingTag ≠ 19 ∧ valueEncodingTag ≠ 12 ∧ valueEncodingTag ≠ 20 then
          Except.ok MatchResult.NoNamesOfGivenType
        else if IsValidPresentedDNSID presentedID then
          match referenceIDType with
          | GeneralNameType.nameConstraints =>
            match CheckPresentedIDConformsToConstraints GeneralNameType.dNSName presentedID
                    referenceID with
            | Except.ok _ => Except.ok MatchResult.Match
            | Except.error _ => Except.ok MatchResult.Mismatch
          | GeneralNameType.dNSName =>
            if PresentedDNSIDMatchesReferenceDNSID presentedID
                 ValidDNSIDMatchType.ReferenceID referenceID then
              Except.ok MatchResult.Match
            else Except.ok MatchResult.Mismatch
          | _ => Except.ok MatchResult.NoNamesOfGivenType
        else
          match ParseIPv4Address presentedID with
          | some ipv4 =>
            match referenceIDType with
            | GeneralNameType.nameConstraints =>
              match CheckPresentedIDConformsToConstraints GeneralNameType.iPAddress ipv4
                      referenceID with
              | Except.ok _ => Except.ok MatchResult.Match
              | Except.error _ => Except.ok MatchResult.Mismatch
            | GeneralNameType.iPAddress =>
              match MatchPresentedIDWithReferenceID GeneralNameType.iPAddress ipv4
                      referenceID with
              | Except.error e => Except.error e
              | Except.ok isMatch =>
                if isMatch then Except.ok MatchResult.Match
                else Except.ok MatchResult.Mismatch
            | _ => Except.ok MatchResult.NoNamesOfGivenType
          | none => Except.ok MatchResult.NoNamesOfGivenType

/-- SearchWithinRDN (pkixnames.cpp lines 447-463): iterate the AVAs of one
RelativeDistinguishedName; each AVA is wrapped in a SEQUENCE (tag 48) that
must be fully consumed, and at least one AVA must be present. -/
def SearchWithinRDN : Nat → List Nat → GeneralNameType → List Nat → MatchResult →
    Except Err MatchResult
  | 0, _, _, _, _ => Except.error Err.BadDer
  | fuel + 1, rdn, referenceIDType, referenceID, mr =>
    match expectTagAndGetValue rdn 48 with
    | none => Except.error Err.BadDer
    | some (ava, rest) =>
      match SearchWithinAVA ava referenceIDType referenceID mr with
      | Except.error e => Except.error e
      | Except.ok mr2 =>
        if rest = [] then Except.ok mr2
        else SearchWithinRDN fuel rest referenceIDType referenceID mr2

/-- The SET OF iteration of the subject walk (der::NestedOf in pkixnames.cpp
lines 434-438): each RDN is a SET (tag 49) whose contents SearchWithinRDN
must consume entirely. -/
def searchSubjectRDNs : Nat → List Nat → GeneralNameType → List Nat → MatchResult →
    Except Err MatchResult
  | 0, _, _, _, _ => Except.error Err.BadDer
  | fuel + 1, rdns, referenceIDType, referenceID, mr =>
    match expectTagAndGetValue rdns 49 with
    | none => Except.error Err.BadDer
    | some (rdn, rest) =>
      match SearchWithinRDN (rdn.length + 1) rdn referenceIDType referenceID mr with
      | Except.error e => Except.error e
      | Except.ok mr2 =>
        if rest = [] then Except.ok mr2
        else searchSubjectRDNs fuel rest referenceIDType referenceID mr2

/-- The CN fallback walk over the subject (pkixnames.cpp lines 427-438): the
subject is a SEQUENCE of RDNs; an empty RDN sequence is allowed and leaves
the match state unchanged. Bytes after the outer SEQUENCE are not examined
by the source (der::Nested only drains the inner value). -/
def searchSubject (subject : List Nat) (referenceIDType : GeneralNameType)
    (referenceID : List Nat) (mr : MatchResult) : Except Err MatchResult :=
  match expectTagAndGetValue subject 48 with
  | none => Except.error Err.BadDer
  | some (rdns, _) =>
    if rdns = [] then Except.ok mr
    else searchSubjectRDNs (rdns.length + 1) rdns referenceIDType referenceID mr

/-- Outcome of the subjectAltName iteration: either the early return taken
when an entry matches the reference ID, or the final match state together
with the flag recording whether any dNSName or iPAddress entry was seen. -/
inductive SanResult where
  | earlyMatch
  | looped (mr : MatchResult) (sawDNSOrIP : Bool)
deriving DecidableEq, Repr

/-- The do-while over subjectAltName entries in SearchNames (pkixnames.cpp
lines 323-353): read one GeneralName; in constraint mode check it against the
constraints; otherwise, if its type equals the reference type, try to match
it, returning early on success and recording Mismatch on failure; finally
record whether the entry was a dNSName or iPAddress. -/
def sanLoop : Nat → List Nat → MatchResult → Bool → GeneralNameType → List Nat →
    Except Err SanResult
  | 0, _, _, _, _, _ => Except.error Err.BadDer
  | fuel + 1, names, mr, saw, referenceIDType, referenceID =>
    match ReadGeneralName names with
    | Except.error e => Except.error e
    | Except.ok (presentedIDType, presentedID, rest) =>
      if referenceIDType = GeneralNameType.nameConstraints then
        match CheckPresentedIDConformsToConstraints presentedIDType presentedID
                referenceID with
        | Except.error e => Except.error e
        | Except.ok _ =>
          let saw2 := if presentedIDType = GeneralNameType.dNSName ∨
                         presentedIDType = GeneralNameType.iPAddress then true else saw
          if rest = [] then Except.ok (SanResult.looped mr saw2)
          else sanLoop fuel rest mr saw2 referenceIDType referenceID
      else if presentedIDType = referenceIDType then
        match MatchPresentedIDWithReferenceID presentedIDType presentedID referenceID with
        | Except.error e => Except.error e
        | Except.ok isMatch =>
          if isMatch then Except.ok SanResult.earlyMatch
          else
            let saw2 := if presentedIDType = GeneralNameType.dNSName ∨
                           presentedIDType = GeneralNameType.iPAddress then true else saw
            if rest = [] then Except.ok (SanResult.looped MatchResult.Mismatch saw2)
            else sanLoop fuel rest MatchResult.Mismatch saw2 referenceIDType referenceID
      else
        let saw2 := if presentedIDType = GeneralNameType.dNSName ∨
                       presentedIDType = GeneralNameType.iPAddress then true else saw
        if rest = [] then Except.ok (SanResult.looped mr saw2)
        else sanLoop fuel rest mr saw2 referenceIDType referenceID

/-- The part of SearchNames after the subjectAltName iteration (pkixnames.cpp
lines 356-439): in constraint mode the subject is checked as a directoryName
against the constraints; then, unless a dNSName or iPAddress SAN was seen or
the fallback is disabled, the CN fallback walks the subject. -/
def searchNamesAfterSAN (subject : List Nat) (referenceIDType : GeneralNameType)
    (referenceID : List Nat) (fallBackToCommonName : Bool) (mr : MatchResult)
    (sawDNSOrIP : Bool) : Except Err MatchResult :=
  match (if referenceIDType = GeneralNameType.nameConstraints then
           CheckPresentedIDConformsToConstraints GeneralNameType.directoryName subject
             referenceID
         else Except.ok ()) with
  | Except.error e => Except.error e
  | Except.ok _ =>
    if sawDNSOrIP ∨ fallBackToCommonName = false then Except.ok mr
    else searchSubject subject referenceIDType referenceID mr

/-- SearchNames (pkixnames.cpp lines 284-439). The subjectAltName, when
present, must be a nonempty SEQUENCE (tag 48) spanning the whole extension
value; a match inside it returns early with Match. -/
def SearchNames (subjectAltName : Option (List Nat)) (subject : List Nat)
    (referenceIDType : GeneralNameType) (referenceID : List Nat)
    (fallBackToCommonName : Bool) : Except Err MatchResult :=
  match subjectAltName with
  | none =>
    searchNamesAfterSAN subject referenceIDType referenceID fallBackToCommonName
      MatchResult.NoNamesOfGivenType false
  | some san =>
    match expectTagAndGetValueAtEnd san 48 with
    | none => Except.error Err.BadDer
    | some altNames =>
      match sanLoop (altNames.length + 1) altNames MatchResult.NoNamesOfGivenType false
              referenceIDType referenceID with
      | Except.error e => Except.error e
      | Except.ok SanResult.earlyMatch => Except.ok MatchResult.Match
      | Except.ok (SanResult.looped mr saw) =>
        searchNamesAfterSAN subject referenceIDType referenceID fallBackToCommonName mr saw

/-- CheckCertHostname (pkixnames.cpp lines 183-232), taken after certificate
parsing: the certificate view supplies the optional subjectAltName extension
value and the subject. A hostname that is a valid reference DNS-ID searches
dNSName entries with CN fallback; an IPv6 literal searches iPAddress entries
without fallback; an IPv4 literal searches iPAddress entries with fallback;
anything else is ErrBadCertDomain, as is any final state other than Match. -/
def CheckCertHostname (subjectAltName : Option (List Nat)) (subject : List Nat)
    (hostname : List Nat) : Except Err Unit :=
  let searched : Except Err MatchResult :=
    if IsValidReferenceDNSID hostname then
      SearchNames subjectAltName subject GeneralNameType.dNSName hostname true
    else
      match ParseIPv6Address hostname with
      | some ipv6 => SearchNames subjectAltName subject GeneralNameType.iPAddress ipv6 false
      | none =>
        match ParseIPv4Address hostname with
        | some ipv4 => SearchNames subjectAltName subject GeneralNameType.iPAddress ipv4 true
        | none => Except.error Err.BadCertDomain
  match searched with
  | Except.error e => Except.error e
  | Except.ok MatchResult.Match => Except.ok ()
  | Except.ok _ => Except.error Err.BadCertDomain

/-- Modelled from the spec: the certificate view (spec section 3) provided by
the external chain builder, exposing the DER subject, the optional
subjectAltName extension value and whether the certificate is the end
entity. -/
structure CertView where
  subjectAltName : Option (List Nat)
  subject : List Nat
  isEndEntity : Bool
deriving DecidableEq, Repr

/-- The extended-key-usage purposes distinguished by CheckNameConstraints:
only serverAuth enables the CN fallback. -/
inductive KeyPurposeId where
  | id_kp_serverAuth
  | otherPurpose
deriving DecidableEq, Repr

/-- CheckNameConstraints (pkixnames.cpp lines 235-265), with the child linked
list modelled as the list of certificate views from firstChild downward: each
descendant is searched against the whole encoded constraints with the
nameConstraints sentinel type; the CN fallback applies only to an end entity
checked for serverAuth; a Mismatch rejects with ErrNotInNameSpace. -/
def CheckNameConstraints (encodedNameConstraints : List Nat) (chain : List CertView)
    (requiredEKUIfPresent : KeyPurposeId) : Except Err Unit :=
  match chain with
  | [] => Except.ok ()
  | child :: rest =>
    let fallBack := child.isEndEntity ∧ requiredEKUIfPresent = KeyPurposeId.id_kp_serverAuth
    match SearchNames child.subjectAltName child.subject GeneralNameType.nameConstraints
            encodedNameConstraints (decide fallBack) with
    | Except.error e => Except.error e
    | Except.ok MatchResult.Mismatch => Except.error Err.NotInNameSpace
    | Except.ok _ => CheckNameConstraints encodedNameConstraints rest requiredEKUIfPresent

/-! Helper lemmas shared by several claims. -/

/-- A subjectAltName extension whose SEQUENCE holds zero GeneralNames makes
SearchNames fail with ErrBadDer: the do-while loop insists on at least one
entry. -/
theorem searchNames_empty_san (san subject : List Nat) (rt : GeneralNameType)
    (rid : List Nat) (fb : Bool) (h : expectTagAndGetValueAtEnd san 48 = some []) :
    SearchNames (some san) subject rt rid fb = Except.error Err.BadDer := by
  simp only [SearchNames, h]
  simp [sanLoop, ReadGeneralName, derReadTLV]

/-! Claim C4. -/

/-- C4: for every excluded-subtree directoryName constraint whose RDN
sequence is non-empty, MatchPresentedDirectoryNameWithConstraint rejects with
ErrNotInNameSpace for every well-formed presented subject, regardless of the
subject content. -/
theorem c4_excluded_directoryName_nonempty_rejects
    (presented constraint cv pv : List Nat)
    (hc : expectTagAndGetValueAtEnd constraint 48 = some cv)
    (hcne : cv ≠ [])
    (hp : expectTagAndGetValueAtEnd presented 48 = some pv) :
    MatchPresentedDirectoryNameWithConstraint NameConstraintsSubtrees.excludedSubtrees
      presented constraint = Except.error Err.NotInNameSpace := by
  simp only [MatchPresentedDirectoryNameWithConstraint, hc, hp]
  simp [hcne]

/-- Witness for C4 at a concrete input: the constraint is a SEQUENCE holding
one empty SET, the presented subject an empty SEQUENCE. -/
theorem c4_witness :
    MatchPresentedDirectoryNameWithConstraint NameConstraintsSubtrees.excludedSubtrees
      [48, 0] [48, 2, 49, 0] = Except.error Err.NotInNameSpace :=
  c4_excluded_directoryName_nonempty_rejects [48, 0] [48, 2, 49, 0] [49, 0] []
    (by decide) (by decide) (by decide)

/-! Claim C10. -/

/-- C10: a subjectAltName extension value that is present but holds zero
GeneralName entries makes SearchNames fail with ErrBadDer, and consequently
both public entry points fail with ErrBadDer rather than falling back to the
commonName: CheckCertHostname for every hostname that would reach the search
(valid DNS-ID, IPv6 or IPv4 literal), and CheckNameConstraints for every
chain whose first certificate carries such an extension. -/
theorem c10_empty_san_is_bad_der :
    (∀ san subject rt rid fb, expectTagAndGetValueAtEnd san 48 = some [] →
       SearchNames (some san) subject rt rid fb = Except.error Err.BadDer)
    ∧ (∀ san subject hostname, expectTagAndGetValueAtEnd san 48 = some [] →
       (IsValidReferenceDNSID hostname = true ∨ ParseIPv6Address hostname ≠ none ∨
        ParseIPv4Address hostname ≠ none) →
       CheckCertHostname (some san) subject hostname = Except.error Err.BadDer)
    ∧ (∀ san cert rest nc eku, expectTagAndGetValueAtEnd san 48 = some [] →
       cert.subjectAltName = some san →
       CheckNameConstraints nc (cert :: rest) eku = Except.error Err.BadDer) := by
  refine ⟨fun san subject rt rid fb h => searchNames_empty_san san subject rt rid fb h,
          fun san subject hostname h hdisp => ?_, fun san cert rest nc eku h hsan => ?_⟩
  · unfold CheckCertHostname
    by_cases hv : IsValidReferenceDNSID hostname = true
    · simp [hv, searchNames_empty_san san subject _ _ _ h]
    · cases h6 : ParseIPv6Address hostname with
      | some ip => simp [hv, h6, searchNames_empty_san san subject _ _ _ h]
      | none =>
        cases h4 : ParseIPv4Address hostname with
        | some ip => simp [hv, h6, h4, searchNames_empty_san san subject _ _ _ h]
        | none =>
          rcases hdisp with hd | hd | hd
          · exact absurd hd hv
          · exact absurd h6 hd
          · exact absurd h4 hd
  · simp only [CheckNameConstraints, hsan, searchNames_empty_san _ _ _ _ _ h]

/-- Witness for C10 at concrete inputs: an empty SAN SEQUENCE (bytes 48, 0)
with hostname a.b and a one-certificate chain. -/
theorem c10_witness :
    SearchNames (some [48, 0]) [] GeneralNameType.dNSName [97] true = Except.error Err.BadDer
    ∧ CheckCertHostname (some [48, 0]) [] [97, 46, 98] = Except.error Err.BadDer
    ∧ CheckNameConstraints [] [⟨some [48, 0], [48, 0], true⟩] KeyPurposeId.id_kp_serverAuth =
        Except.error Err.BadDer :=
  ⟨c10_empty_san_is_bad_der.1 [48, 0] [] GeneralNameType.dNSName [97] true (by decide),
   c10_empty_san_is_bad_der.2.1 [48, 0] [] [97, 46, 98] (by decide) (Or.inl (by decide)),
   c10_empty_san_is_bad_der.2.2 [48, 0] ⟨some [48, 0], [48, 0], true⟩ [] []
     KeyPurposeId.id_kp_serverAuth (by decide) rfl⟩

/-! Claim C1. -/

/-- C1: CheckCertHostname returns Ok exactly when the search over presented
identifiers reports Match; it returns ErrBadCertDomain when the hostname is
not a valid reference DNS-ID, IPv6 literal or IPv4 literal, and when the
search of the dispatched reference type completes with NoNamesOfGivenType or
Mismatch. -/
theorem c1_check_cert_hostname_characterization :
    (∀ san subject hostname,
       IsValidReferenceDNSID hostname = false → ParseIPv6Address hostname = none →
       ParseIPv4Address hostname = none →
       CheckCertHostname san subject hostname = Except.error Err.BadCertDomain)
    ∧ (∀ san subject hostname mr,
       IsValidReferenceDNSID hostname = true →
       SearchNames san subject GeneralNameType.dNSName hostname true = Except.ok mr →
       (CheckCertHostname san subject hostname = Except.ok () ↔ mr = MatchResult.Match)
       ∧ (mr ≠ MatchResult.Match →
          CheckCertHostname san subject hostname = Except.error Err.BadCertDomain))
    ∧ (∀ san subject hostname ip mr,
       IsValidReferenceDNSID hostname = false → ParseIPv6Address hostname = some ip →
       SearchNames san subject GeneralNameType.iPAddress ip false = Except.ok mr →
       (CheckCertHostname san subject hostname = Except.ok () ↔ mr = MatchResult.Match)
       ∧ (mr ≠ MatchResult.Match →
          CheckCertHostname san subject hostname = Except.error Err.BadCertDomain))
    ∧ (∀ san subject hostname ip mr,
       IsValidReferenceDNSID hostname = false → ParseIPv6Address hostname = none →
       ParseIPv4Address hostname = some ip →
       SearchNames san subject GeneralNameType.iPAddress ip true = Except.ok mr →
       (CheckCertHostname san subject hostname = Except.ok () ↔ mr = MatchResult.Match)
       ∧ (mr ≠ MatchResult.Match →
          CheckCertHostname san subject hostname = Except.error Err.BadCertDomain)) := by
  refine ⟨fun san subject hostname hv h6 h4 => ?_,
          fun san subject hostname mr hv hs => ?_,
          fun san subject hostname ip mr hv h6 hs => ?_,
          fun san subject hostname ip mr hv h6 h4 hs => ?_⟩
  · unfold CheckCertHostname
    simp [hv, h6, h4]
  · unfold CheckCertHostname
    simp only [hv, if_true, hs]
    cases mr <;> simp
  · unfold CheckCertHostname
    simp only [hv, Bool.false_eq_true, if_false, h6, hs]
    cases mr <;> simp
  · unfold CheckCertHostname
    simp only [hv, Bool.false_eq_true, if_false, h6, h4, hs]
    cases mr <;> simp

/-- Witness for C1 at concrete inputs: a SAN with one dNSName a.b for parts
on a DNS hostname, a SAN with one iPAddress for the IPv6 and IPv4 parts, and
an invalid hostname for the first part. -/
theorem c1_witness :
    CheckCertHostname none [] [45] = Except.error Err.BadCertDomain
    ∧ (CheckCertHostname (some [48, 5, 130, 3, 97, 46, 98]) [] [97, 46, 98] = Except.ok ()
       ↔ MatchResult.Match = MatchResult.Match)
    ∧ (CheckCertHostname (some [48, 18, 135, 16, 0, 0, 0, 0, 0, 0, 0, 0, 0, 0, 0, 0, 0, 0, 0, 1])
        [] [58, 58, 49] = Except.ok () ↔ MatchResult.Match = MatchResult.Match)
    ∧ (CheckCertHostname (some [48, 6, 135, 4, 127, 0, 0, 1]) [] [49, 50, 55, 46, 48, 46, 48, 46, 49]
         = Except.ok () ↔ MatchResult.Match = MatchResult.Match) :=
  ⟨c1_check_cert_hostname_characterization.1 none [] [45] (by decide) (by decide) (by decide),
   (c1_check_cert_hostname_characterization.2.1 (some [48, 5, 130, 3, 97, 46, 98]) [] [97, 46, 98]
      MatchResult.Match (by decide) (by decide)).1,
   (c1_check_cert_hostname_characterization.2.2.1
      (some [48, 18, 135, 16, 0, 0, 0, 0, 0, 0, 0, 0, 0, 0, 0, 0, 0, 0, 0, 1]) [] [58, 58, 49]
      [0, 0, 0, 0, 0, 0, 0, 0, 0, 0, 0, 0, 0, 0, 0, 1] MatchResult.Match
      (by decide) (by decide) (by decide)).1,
   (c1_check_cert_hostname_characterization.2.2.2
      (some [48, 6, 135, 4, 127, 0, 0, 1]) [] [49, 50, 55, 46, 48, 46, 48, 46, 49]
      [127, 0, 0, 1] MatchResult.Match (by decide) (by decide) (by decide) (by decide)).1⟩

/-! Claim C7. -/

/-- The byte loop of the iPAddress constraint matcher computes exactly the
conjunction of the masked-xor test over all byte positions, given equal
lengths and a nonempty presented address. -/
theorem ipMatchLoop_eq (ps : List Nat) : ∀ as2 ms : List Nat,
    as2.length = ps.length → ms.length = ps.length → ps ≠ [] →
    ipMatchLoop ps as2 ms =
      Except.ok (decide (∀ i < ps.length,
        ((ps.getD i 0) ^^^ (as2.getD i 0)) &&& (ms.getD i 0) = 0)) := by
  induction ps with
  | nil => intro as2 ms _ _ hne; exact absurd rfl hne
  | cons p ps2 ih =>
    intro as2 ms h1 h2 _
    match as2, h1 with
    | a :: rest1, h1 =>
      match ms, h2 with
      | m :: rest2, h2 =>
        simp only [List.length_cons, Nat.add_right_cancel_iff] at h1 h2
        by_cases hz : ((p ^^^ a) &&& m) = 0
        · by_cases hps : ps2 = []
          · subst hps
            have hlen1 : rest1 = [] := List.eq_nil_of_length_eq_zero h1
            have hlen2 : rest2 = [] := List.eq_nil_of_length_eq_zero h2
            subst hlen1; subst hlen2
            simp [ipMatchLoop, hz, Nat.lt_one_iff]
          · have hiff : (∀ i < ps2.length + 1,
                ((p :: ps2).getD i 0 ^^^ (a :: rest1).getD i 0) &&& ((m :: rest2).getD i 0) = 0)
                ↔ (∀ i < ps2.length,
                (ps2.getD i 0 ^^^ rest1.getD i 0) &&& (rest2.getD i 0) = 0) := by
              constructor
              · intro hAll i hi
                exact hAll (i + 1) (by omega)
              · intro hAll i hi
                cases i with
                | zero => simpa using hz
                | succ j => exact hAll j (by omega)
            simp only [ipMatchLoop, hz, if_true, hps, if_false, List.length_cons]
            rw [ih rest1 rest2 h1 h2 hps]
            exact congrArg Except.ok (by rw [decide_eq_decide]; exact hiff.symm)
        · have hnall : ¬ (∀ i < ps2.length + 1,
              ((p :: ps2).getD i 0 ^^^ (a :: rest1).getD i 0) &&& ((m :: rest2).getD i 0) = 0) := by
            intro hAll
            exact hz (by simpa using hAll 0 (by omega))
          simp only [ipMatchLoop, hz, if_false, List.length_cons]
          rw [decide_eq_false hnall]

/-- C7: for a presented address of length 4 or 16 and a constraint of length
8 or 32, MatchPresentedIPAddressWithConstraint reports a match exactly when
the presented length is half the constraint length and every presented byte
xored with the address half and masked by the mask half is zero; a v4/v6
family mismatch yields false with Success, and any other lengths give
ErrBadDer. -/
theorem c7_ip_address_constraint_matching (p c : List Nat) :
    ((p.length = 4 ∨ p.length = 16) → (c.length = 8 ∨ c.length = 32) →
      (p.length * 2 = c.length →
        MatchPresentedIPAddressWithConstraint p c =
          Except.ok (decide (∀ i < p.length,
            ((p.getD i 0) ^^^ ((c.take (c.length / 2)).getD i 0)) &&&
              ((c.drop (c.length / 2)).getD i 0) = 0)))
      ∧ (p.length * 2 ≠ c.length →
          MatchPresentedIPAddressWithConstraint p c = Except.ok false))
    ∧ (((p.length ≠ 4 ∧ p.length ≠ 16) ∨ (c.length ≠ 8 ∧ c.length ≠ 32)) →
        MatchPresentedIPAddressWithConstraint p c = Except.error Err.BadDer) := by
  constructor
  · intro hp hc
    constructor
    · intro hlen
      have hp4 : ¬ (p.length ≠ 4 ∧ p.length ≠ 16) := by
        rcases hp with h | h <;> simp [h]
      have hc8 : ¬ (c.length ≠ 8 ∧ c.length ≠ 32) := by
        rcases hc with h | h <;> simp [h]
      have htake : (c.take (c.length / 2)).length = p.length := by
        simp only [List.length_take]
        omega
      have hdrop : (c.drop (c.length / 2)).length = p.length := by
        simp only [List.length_drop]
        omega
      have hne : p ≠ [] := by
        intro hnil
        rw [hnil] at hp
        simp at hp
      simp only [MatchPresentedIPAddressWithConstraint, hp4, if_false, hc8, hlen]
      simp only [ne_eq, not_true_eq_false, if_false]
      exact ipMatchLoop_eq p _ _ htake hdrop hne
    · intro hlen
      have hp4 : ¬ (p.length ≠ 4 ∧ p.length ≠ 16) := by
        rcases hp with h | h <;> simp [h]
      have hc8 : ¬ (c.length ≠ 8 ∧ c.length ≠ 32) := by
        rcases hc with h | h <;> simp [h]
      simp [MatchPresentedIPAddressWithConstraint, hp4, hc8, hlen]
  · intro hbad
    rcases hbad with h | h
    · simp [MatchPresentedIPAddressWithConstraint, h]
    · by_cases hp4 : p.length ≠ 4 ∧ p.length ≠ 16
      · simp [MatchPresentedIPAddressWithConstraint, hp4]
      · simp [MatchPresentedIPAddressWithConstraint, hp4, h]

/-- Witness for C7 at concrete inputs: the class C example from RFC 5280
(192.0.2.1 against 192.0.2.0/24), a v4 address against a v6 constraint, and
a malformed two-byte presented address. -/
theorem c7_witness :
    MatchPresentedIPAddressWithConstraint [192, 0, 2, 1]
      [192, 0, 2, 0, 255, 255, 255, 0] = Except.ok true
    ∧ MatchPresentedIPAddressWithConstraint [192, 0, 2, 1]
        [0, 0, 0, 0, 0, 0, 0, 0, 0, 0, 0, 0, 0, 0, 0, 1,
         255, 255, 255, 255, 255, 255, 255, 255, 255, 255, 255, 255, 255, 255, 255, 255] =
        Except.ok false
    ∧ MatchPresentedIPAddressWithConstraint [1, 2] [192, 0, 2, 0, 255, 255, 255, 0] =
        Except.error Err.BadDer :=
  ⟨(((c7_ip_address_constraint_matching [192, 0, 2, 1] [192, 0, 2, 0, 255, 255, 255, 0]).1
      (by decide) (by decide)).1 (by decide)).trans (by decide),
   ((c7_ip_address_constraint_matching [192, 0, 2, 1] _).1 (by decide) (by decide)).2 (by decide),
   (c7_ip_address_constraint_matching [1, 2] [192, 0, 2, 0, 255, 255, 255, 0]).2
     (Or.inl (by decide))⟩

/-! Claim C2. -/

/-- Whether a GeneralName type is dNSName or iPAddress, the two types whose
presence in the subjectAltName suppresses the CN fallback. -/
def isDNSOrIPType (t : GeneralNameType) : Bool :=
  if t = GeneralNameType.dNSName ∨ t = GeneralNameType.iPAddress then true else false

/-- The full list of GeneralNames encoded in a subjectAltName SEQUENCE value,
read with the same ReadGeneralName used by the search loop (at least one
entry, consuming everything). -/
def parseGeneralNames : Nat → List Nat → Option (List (GeneralNameType × List Nat))
  | 0, _ => none
  | fuel + 1, bs =>
    match ReadGeneralName bs with
    | Except.error _ => none
    | Except.ok (t, v, rest) =>
      if rest = [] then some [(t, v)]
      else
        match parseGeneralNames fuel rest with
        | none => none
        | some l => some ((t, v) :: l)

/-- When the SAN loop completes without an early match, its dNSName-or-
iPAddress flag is exactly the initial flag joined with whether the parsed
entry list contains a dNSName or iPAddress. -/
theorem sanLoop_saw_flag : ∀ fuel ns mr0 saw rt rid l mr saw2,
    sanLoop fuel ns mr0 saw rt rid = Except.ok (SanResult.looped mr saw2) →
    parseGeneralNames fuel ns = some l →
    saw2 = (saw || l.any (fun e => isDNSOrIPType e.1)) := by
  intro fuel
  induction fuel with
  | zero => intro ns mr0 saw rt rid l mr saw2 hsl _; simp [sanLoop] at hsl
  | succ fuel ih =>
    intro ns mr0 saw rt rid l mr saw2 hsl hpg
    rw [sanLoop] at hsl
    rw [parseGeneralNames] at hpg
    cases hr : ReadGeneralName ns with
    | error e => rw [hr] at hsl; exact absurd hsl (by simp)
    | ok tvr =>
      obtain ⟨t, v, rest⟩ := tvr
      rw [hr] at hsl hpg
      simp only at hsl hpg
      by_cases hnc : rt = GeneralNameType.nameConstraints
      · rw [if_pos hnc] at hsl
        cases hcc : CheckPresentedIDConformsToConstraints t v rid with
        | error e => rw [hcc] at hsl; exact absurd hsl (by simp)
        | ok u =>
          rw [hcc] at hsl
          simp only at hsl
          by_cases hrest : rest = []
          · rw [if_pos hrest] at hsl
            rw [if_pos hrest] at hpg
            cases hpg
            cases hsl
            by_cases ht : t = GeneralNameType.dNSName ∨ t = GeneralNameType.iPAddress
            · simp [isDNSOrIPType, ht]
            · simp [isDNSOrIPType, ht]
          · rw [if_neg hrest] at hsl
            rw [if_neg hrest] at hpg
            cases hpl : parseGeneralNames fuel rest with
            | none => rw [hpl] at hpg; exact absurd hpg (by simp)
            | some l2 =>
              rw [hpl] at hpg
              simp only [Option.some.injEq] at hpg
              subst hpg
              have := ih rest mr0
                (if t = GeneralNameType.dNSName ∨ t = GeneralNameType.iPAddress then true else saw)
                rt rid l2 mr saw2 hsl hpl
              rw [this]
              simp only [List.any_cons, isDNSOrIPType]
              by_cases ht : t = GeneralNameType.dNSName ∨ t = GeneralNameType.iPAddress
              · simp [ht]
              · simp [ht, Bool.or_assoc]
      · rw [if_neg hnc] at hsl
        by_cases hteq : t = rt
        · rw [if_pos hteq] at hsl
          cases hm : MatchPresentedIDWithReferenceID t v rid with
          | error e => rw [hm] at hsl; exact absurd hsl (by simp)
          | ok isMatch =>
            rw [hm] at hsl
            simp only at hsl
            by_cases him : isMatch = true
            · rw [if_pos him] at hsl; exact absurd hsl (by simp)
            · rw [if_neg him] at hsl
              by_cases hrest : rest = []
              · rw [if_pos hrest] at hsl
                rw [if_pos hrest] at hpg
                cases hpg
                cases hsl
                simp only [List.any_cons, List.any_nil, Bool.or_false, isDNSOrIPType]
                by_cases ht : t = GeneralNameType.dNSName ∨ t = GeneralNameType.iPAddress
                · simp [ht]
                · simp [ht]
              · rw [if_neg hrest] at hsl
                rw [if_neg hrest] at hpg
                cases hpl : parseGeneralNames fuel rest with
                | none => rw [hpl] at hpg; exact absurd hpg (by simp)
                | some l2 =>
                  rw [hpl] at hpg
                  simp only [Option.some.injEq] at hpg
                  subst hpg
                  have := ih rest MatchResult.Mismatch
                    (if t = GeneralNameType.dNSName ∨ t = GeneralNameType.iPAddress then true
                     else saw) rt rid l2 mr saw2 hsl hpl
                  rw [this]
                  simp only [List.any_cons, isDNSOrIPType]
                  by_cases ht : t = GeneralNameType.dNSName ∨ t = GeneralNameType.iPAddress
                  · simp [ht]
                  · simp [ht, Bool.or_assoc]
        · rw [if_neg hteq] at hsl
          by_cases hrest : rest = []
          · rw [if_pos hrest] at hsl
            rw [if_pos hrest] at hpg
            cases hpg
            cases hsl
            simp only [List.any_cons, List.any_nil, Bool.or_false, isDNSOrIPType]
            by_cases ht : t = GeneralNameType.dNSName ∨ t = GeneralNameType.iPAddress
            · simp [ht]
            · simp [ht]
          · rw [if_neg hrest] at hsl
            rw [if_neg hrest] at hpg
            cases hpl : parseGeneralNames fuel rest with
            | none => rw [hpl] at hpg; exact absurd hpg (by simp)
            | some l2 =>
              rw [hpl] at hpg
              simp only [Option.some.injEq] at hpg
              subst hpg
              have := ih rest mr0
                (if t = GeneralNameType.dNSName ∨ t = GeneralNameType.iPAddress then true else saw)
                rt rid l2 mr saw2 hsl hpl
              rw [this]
              simp only [List.any_cons, isDNSOrIPType]
              by_cases ht : t = GeneralNameType.dNSName ∨ t = GeneralNameType.iPAddress
              · simp [ht]
              · simp [ht, Bool.or_assoc]

/-- After a SAN traversal that saw a dNSName or iPAddress, the post-SAN phase
returns the accumulated state directly: the CN fallback is skipped. -/
theorem searchNamesAfterSAN_saw (subject : List Nat) (rt : GeneralNameType)
    (rid : List Nat) (fb : Bool) (mr : MatchResult)
    (hnc : rt ≠ GeneralNameType.nameConstraints) :
    searchNamesAfterSAN subject rt rid fb mr true = Except.ok mr := by
  simp [searchNamesAfterSAN, hnc]

/-- C2: when the subjectAltName holds at least one dNSName or iPAddress
entry, the subject commonName is never consulted and the fallback flag is
irrelevant: the result of SearchNames is independent of the subject and of
the fallback flag, even when no SAN entry of the reference type exists. -/
theorem c2_cn_fallback_suppressed_by_dns_or_ip_san
    (san altNames : List Nat) (l : List (GeneralNameType × List Nat))
    (subject1 subject2 : List Nat) (fb1 fb2 : Bool) (rt : GeneralNameType) (rid : List Nat)
    (hrt : rt = GeneralNameType.dNSName ∨ rt = GeneralNameType.iPAddress)
    (hsan : expectTagAndGetValueAtEnd san 48 = some altNames)
    (hparse : parseGeneralNames (altNames.length + 1) altNames = some l)
    (hdns : l.any (fun e => isDNSOrIPType e.1) = true) :
    SearchNames (some san) subject1 rt rid fb1 = SearchNames (some san) subject2 rt rid fb2 := by
  have hnc : rt ≠ GeneralNameType.nameConstraints := by
    rcases hrt with h | h <;> simp [h]
  simp only [SearchNames, hsan]
  cases hsl : sanLoop (altNames.length + 1) altNames MatchResult.NoNamesOfGivenType false rt rid with
  | error e => rfl
  | ok sr =>
    cases sr with
    | earlyMatch => rfl
    | looped mr saw =>
      have hsaw : saw = true := by
        have := sanLoop_saw_flag (altNames.length + 1) altNames MatchResult.NoNamesOfGivenType
          false rt rid l mr saw hsl hparse
        rw [this, hdns]
        simp
      subst hsaw
      show searchNamesAfterSAN subject1 rt rid fb1 mr true
         = searchNamesAfterSAN subject2 rt rid fb2 mr true
      rw [searchNamesAfterSAN_saw subject1 rt rid fb1 mr hnc,
          searchNamesAfterSAN_saw subject2 rt rid fb2 mr hnc]

/-- Witness for C2 at a concrete input: a SAN holding only an iPAddress while
the reference type is dNSName a.b; the first subject holds a commonName a.b
that would match if consulted, the second is empty, yet the results agree. -/
theorem c2_witness :
    SearchNames (some [48, 6, 135, 4, 1, 2, 3, 4])
      [48, 16, 49, 14, 48, 12, 6, 3, 85, 4, 3, 19, 3, 97, 46, 98, 0, 0]
      GeneralNameType.dNSName [97, 46, 98] true
    = SearchNames (some [48, 6, 135, 4, 1, 2, 3, 4]) [] GeneralNameType.dNSName [97, 46, 98] false :=
  c2_cn_fallback_suppressed_by_dns_or_ip_san [48, 6, 135, 4, 1, 2, 3, 4] [135, 4, 1, 2, 3, 4]
    [(GeneralNameType.iPAddress, [1, 2, 3, 4])]
    [48, 16, 49, 14, 48, 12, 6, 3, 85, 4, 3, 19, 3, 97, 46, 98, 0, 0] [] true false
    GeneralNameType.dNSName [97, 46, 98] (Or.inl rfl) (by decide) (by decide) (by decide)

/-! Claim C8. -/

/-- The forward order on match states: NoNamesOfGivenType may move to
anything, Mismatch only to Mismatch or Match, Match only stays Match. -/
def matchLe : MatchResult → MatchResult → Bool
  | MatchResult.NoNamesOfGivenType, _ => true
  | MatchResult.Mismatch, MatchResult.Mismatch => true
  | MatchResult.Mismatch, MatchResult.Match => true
  | MatchResult.Match, MatchResult.Match => true
  | _, _ => false

theorem matchLe_noNames (m : MatchResult) :
    matchLe MatchResult.NoNamesOfGivenType m = true := by
  cases m <;> rfl

/-- The SAN iteration never moves the match state backwards: starting from a
non-Match state (the only reachable ones, since Match returns early), the
state it finishes with is at least the starting state. -/
theorem sanLoop_monotone : ∀ fuel ns mr0 saw rt rid mr saw2,
    mr0 ≠ MatchResult.Match →
    sanLoop fuel ns mr0 saw rt rid = Except.ok (SanResult.looped mr saw2) →
    matchLe mr0 mr = true := by
  intro fuel
  induction fuel with
  | zero => intro ns mr0 saw rt rid mr saw2 _ hsl; simp [sanLoop] at hsl
  | succ fuel ih =>
    intro ns mr0 saw rt rid mr saw2 hm0 hsl
    rw [sanLoop] at hsl
    cases hr : ReadGeneralName ns with
    | error e => rw [hr] at hsl; exact absurd hsl (by simp)
    | ok tvr =>
      obtain ⟨t, v, rest⟩ := tvr
      rw [hr] at hsl
      simp only at hsl
      by_cases hnc : rt = GeneralNameType.nameConstraints
      · rw [if_pos hnc] at hsl
        cases hcc : CheckPresentedIDConformsToConstraints t v rid with
        | error e => rw [hcc] at hsl; exact absurd hsl (by simp)
        | ok u =>
          rw [hcc] at hsl
          simp only at hsl
          by_cases hrest : rest = []
          · rw [if_pos hrest] at hsl
            cases hsl
            cases mr0 with
            | NoNamesOfGivenType => exact matchLe_noNames _
            | Mismatch => rfl
            | Match => exact absurd rfl hm0
          · rw [if_neg hrest] at hsl
            exact ih rest mr0 _ rt rid mr saw2 hm0 hsl
      · rw [if_neg hnc] at hsl
        by_cases hteq : t = rt
        · rw [if_pos hteq] at hsl
          cases hmref : MatchPresentedIDWithReferenceID t v rid with
          | error e => rw [hmref] at hsl; exact absurd hsl (by simp)
          | ok isMatch =>
            rw [hmref] at hsl
            simp only at hsl
            by_cases him : isMatch = true
            · rw [if_pos him] at hsl; exact absurd hsl (by simp)
            · rw [if_neg him] at hsl
              by_cases hrest : rest = []
              · rw [if_pos hrest] at hsl
                cases hsl
                cases mr0 with
                | NoNamesOfGivenType => rfl
                | Mismatch => rfl
                | Match => exact absurd rfl hm0
              · rw [if_neg hrest] at hsl
                have hstep := ih rest MatchResult.Mismatch _ rt rid mr saw2 (by decide) hsl
                cases mr0 with
                | NoNamesOfGivenType => exact matchLe_noNames _
                | Mismatch => exact hstep
                | Match => exact absurd rfl hm0
        · rw [if_neg hteq] at hsl
          by_cases hrest : rest = []
          · rw [if_pos hrest] at hsl
            cases hsl
            cases mr0 with
            | NoNamesOfGivenType => exact matchLe_noNames _
            | Mismatch => rfl
            | Match => exact absurd rfl hm0
          · rw [if_neg hrest] at hsl
            exact ih rest mr0 _ rt rid mr saw2 hm0 hsl

/-- A commonName AVA resets the match state before inspecting its value, so
the outcome of SearchWithinAVA on a CN AVA does not depend on the incoming
state. -/
theorem searchWithinAVA_cn_independent (ava : List Nat) (rt : GeneralNameType)
    (rid : List Nat) (r2 : List Nat)
    (h : expectTagAndGetValue ava 6 = some ([85, 4, 3], r2)) (m1 m2 : MatchResult) :
    SearchWithinAVA ava rt rid m1 = SearchWithinAVA ava rt rid m2 := by
  simp only [SearchWithinAVA, h]
  simp

/-- A non-commonName AVA leaves the match state untouched. -/
theorem searchWithinAVA_non_cn (ava : List Nat) (rt : GeneralNameType)
    (rid : List Nat) (oid r2 : List Nat)
    (h : expectTagAndGetValue ava 6 = some (oid, r2)) (hoid : oid ≠ [85, 4, 3])
    (m : MatchResult) :
    SearchWithinAVA ava rt rid m = Except.ok m := by
  simp only [SearchWithinAVA, h]
  simp [hoid]

/-- Within one RDN holding a CN AVA followed by another CN AVA, the first CN
is forgotten: the walk gives the same result as walking the second AVA
alone, whatever the incoming state. -/
theorem searchWithinRDN_two_cn (f : Nat) (bs v1 rest v2 r1 r2 : List Nat)
    (rt : GeneralNameType) (rid : List Nat) (m m1 : MatchResult)
    (hf : 2 ≤ f)
    (h1 : expectTagAndGetValue bs 48 = some (v1, rest))
    (hrest : rest ≠ [])
    (h2 : expectTagAndGetValue rest 48 = some (v2, []))
    (_hcn1 : expectTagAndGetValue v1 6 = some ([85, 4, 3], r1))
    (hcn2 : expectTagAndGetValue v2 6 = some ([85, 4, 3], r2))
    (hava : SearchWithinAVA v1 rt rid m = Except.ok m1) :
    SearchWithinRDN f bs rt rid m = SearchWithinRDN f rest rt rid m := by
  obtain ⟨k, rfl⟩ : ∃ k, f = k + 2 := ⟨f - 2, by omega⟩
  have hswap := searchWithinAVA_cn_independent v2 rt rid r2 hcn2 m1 m
  conv_lhs => rw [SearchWithinRDN]
  simp only [h1, hava, if_neg hrest]
  conv_lhs => rw [SearchWithinRDN]
  conv_rhs => rw [SearchWithinRDN]
  simp [h2, hswap]

/-- C8: the SAN iteration moves the match state only forward (never from
Mismatch or Match back towards NoNamesOfGivenType); during the CN fallback
walk every commonName AVA resets the state before its value is inspected, so
its outcome ignores the incoming state, while a non-commonName AVA leaves the
state unchanged; consequently, in an RDN carrying commonName values c1 then
c2, the walk result equals the result of walking c2 alone. -/
theorem c8_match_state_monotonic_with_cn_reset :
    (∀ fuel ns mr0 saw rt rid mr saw2, mr0 ≠ MatchResult.Match →
       sanLoop fuel ns mr0 saw rt rid = Except.ok (SanResult.looped mr saw2) →
       matchLe mr0 mr = true)
    ∧ (∀ ava rt rid r2, expectTagAndGetValue ava 6 = some ([85, 4, 3], r2) →
       ∀ m1 m2, SearchWithinAVA ava rt rid m1 = SearchWithinAVA ava rt rid m2)
    ∧ (∀ ava rt rid oid r2 m, expectTagAndGetValue ava 6 = some (oid, r2) →
       oid ≠ [85, 4, 3] → SearchWithinAVA ava rt rid m = Except.ok m)
    ∧ (∀ f bs v1 rest v2 r1 r2 rt rid m m1, 2 ≤ f →
       expectTagAndGetValue bs 48 = some (v1, rest) → rest ≠ [] →
       expectTagAndGetValue rest 48 = some (v2, []) →
       expectTagAndGetValue v1 6 = some ([85, 4, 3], r1) →
       expectTagAndGetValue v2 6 = some ([85, 4, 3], r2) →
       SearchWithinAVA v1 rt rid m = Except.ok m1 →
       SearchWithinRDN f bs rt rid m = SearchWithinRDN f rest rt rid m) :=
  ⟨sanLoop_monotone,
   fun ava rt rid r2 h m1 m2 => searchWithinAVA_cn_independent ava rt rid r2 h m1 m2,
   fun ava rt rid oid r2 m h hoid => searchWithinAVA_non_cn ava rt rid oid r2 h hoid m,
   fun f bs v1 rest v2 r1 r2 rt rid m m1 hf h1 hr h2 hc1 hc2 hava =>
     searchWithinRDN_two_cn f bs v1 rest v2 r1 r2 rt rid m m1 hf h1 hr h2 hc1 hc2 hava⟩

/-- Witness for C8 at concrete inputs: a SAN with a mismatching dNSName, a
CN AVA invoked from the two states it can reach, a non-CN AVA, and an RDN
with CN a followed by CN b against reference b. -/
theorem c8_witness :
    matchLe MatchResult.NoNamesOfGivenType MatchResult.Mismatch = true
    ∧ SearchWithinAVA [6, 3, 85, 4, 3, 19, 1, 97] GeneralNameType.dNSName [98]
        MatchResult.Match
      = SearchWithinAVA [6, 3, 85, 4, 3, 19, 1, 97] GeneralNameType.dNSName [98]
          MatchResult.Mismatch
    ∧ SearchWithinAVA [6, 3, 85, 4, 4, 19, 1, 97] GeneralNameType.dNSName [98]
        MatchResult.Mismatch = Except.ok MatchResult.Mismatch
    ∧ SearchWithinRDN 2 [48, 8, 6, 3, 85, 4, 3, 19, 1, 97, 48, 8, 6, 3, 85, 4, 3, 19, 1, 98]
        GeneralNameType.dNSName [98] MatchResult.NoNamesOfGivenType
      = SearchWithinRDN 2 [48, 8, 6, 3, 85, 4, 3, 19, 1, 98] GeneralNameType.dNSName [98]
          MatchResult.NoNamesOfGivenType :=
  ⟨c8_match_state_monotonic_with_cn_reset.1 4 [130, 1, 97] MatchResult.NoNamesOfGivenType false
     GeneralNameType.dNSName [98] MatchResult.Mismatch true (by decide) (by decide),
   c8_match_state_monotonic_with_cn_reset.2.1 [6, 3, 85, 4, 3, 19, 1, 97]
     GeneralNameType.dNSName [98] [19, 1, 97] (by decide) MatchResult.Match MatchResult.Mismatch,
   c8_match_state_monotonic_with_cn_reset.2.2.1 [6, 3, 85, 4, 4, 19, 1, 97]
     GeneralNameType.dNSName [98] [85, 4, 4] [19, 1, 97] MatchResult.Mismatch
     (by decide) (by decide),
   c8_match_state_monotonic_with_cn_reset.2.2.2 2
     [48, 8, 6, 3, 85, 4, 3, 19, 1, 97, 48, 8, 6, 3, 85, 4, 3, 19, 1, 98]
     [6, 3, 85, 4, 3, 19, 1, 97] [48, 8, 6, 3, 85, 4, 3, 19, 1, 98]
     [6, 3, 85, 4, 3, 19, 1, 98] [19, 1, 97] [19, 1, 98]
     GeneralNameType.dNSName [98] MatchResult.NoNamesOfGivenType MatchResult.Mismatch
     (by decide) (by decide) (by decide) (by decide) (by decide) (by decide) (by decide)⟩

/-! Structure lemmas for the IsValidDNSID character loop, used by the
wildcard, round-trip and name-constraint claims. -/

/-- The asterisk is not an accepted character inside the loop. -/
theorem dnsCharStep_star (nc : Bool) (st : DNSState) : dnsCharStep nc 42 st = none := by
  norm_num [dnsCharStep]

/-- What one accepted character does to the scan state: the byte is a
hyphen, digit, letter or dot; the dot count grows exactly on dots; and the
label length becomes zero exactly on dots. -/
theorem dnsCharStep_some (nc : Bool) (b : Nat) (st st2 : DNSState)
    (h : dnsCharStep nc b st = some st2) :
    st2.dotCount = st.dotCount + (if b = 46 then 1 else 0)
    ∧ (st2.labelLength = 0 ↔ b = 46)
    ∧ (b = 45 ∨ (48 ≤ b ∧ b ≤ 57) ∨ (65 ≤ b ∧ b ≤ 90) ∨ (97 ≤ b ∧ b ≤ 122) ∨ b = 46) := by
  unfold dnsCharStep at h
  split_ifs at h with h1 h2 h3 h4 h5 h6 h7 h8 h9 h10 h11
  · injection h with h0
    subst h0
    subst h1
    refine ⟨by norm_num, by simp, by tauto⟩
  · injection h with h0
    subst h0
    have hb : b ≠ 46 := by omega
    refine ⟨by simp [hb], by simp [hb], by tauto⟩
  · injection h with h0
    subst h0
    have hb : b ≠ 46 := by omega
    refine ⟨by simp [hb], by simp [hb], by tauto⟩
  · injection h with h0
    subst h0
    have hb : b ≠ 46 := by rcases h7 with hA | hA <;> omega
    refine ⟨by simp [hb], by simp [hb], by tauto⟩
  · injection h with h0
    subst h0
    subst h9
    refine ⟨by norm_num, by simp, by tauto⟩

/-- Every byte accepted by the character loop is a hyphen, digit, letter or
dot. -/
theorem dnsCharLoop_chars (nc : Bool) : ∀ bs st st2, dnsCharLoop nc bs st = some st2 →
    ∀ b ∈ bs, b = 45 ∨ (48 ≤ b ∧ b ≤ 57) ∨ (65 ≤ b ∧ b ≤ 90) ∨ (97 ≤ b ∧ b ≤ 122) ∨ b = 46 := by
  intro bs
  induction bs with
  | nil => intro st st2 _ b hb; cases hb
  | cons c cs ih =>
    intro st st2 h b hb
    rw [dnsCharLoop] at h
    cases hs : dnsCharStep nc c st with
    | none => rw [hs] at h; exact absurd h (by simp)
    | some stm =>
      rw [hs] at h
      rcases List.mem_cons.mp hb with rfl | hmem
      · exact (dnsCharStep_some nc b st stm hs).2.2
      · exact ih stm st2 h b hmem

/-- In particular no byte accepted by the character loop is an asterisk. -/
theorem dnsCharLoop_ne_star (nc : Bool) (bs : List Nat) (st st2 : DNSState)
    (h : dnsCharLoop nc bs st = some st2) : ∀ b ∈ bs, b ≠ 42 := by
  intro b hb
  rcases dnsCharLoop_chars nc bs st st2 h b hb with h1 | h1 | h1 | h1 | h1 <;> omega

/-- The character loop adds exactly the number of dots in its input to the
dot count. -/
theorem dnsCharLoop_dotCount (nc : Bool) : ∀ bs st st2, dnsCharLoop nc bs st = some st2 →
    st2.dotCount = st.dotCount + bs.count 46 := by
  intro bs
  induction bs with
  | nil =>
    intro st st2 h
    simp only [dnsCharLoop, Option.some.injEq] at h
    subst h
    simp
  | cons c cs ih =>
    intro st st2 h
    rw [dnsCharLoop] at h
    cases hs : dnsCharStep nc c st with
    | none => rw [hs] at h; exact absurd h (by simp)
    | some stm =>
      rw [hs] at h
      have hstep := (dnsCharStep_some nc c st stm hs).1
      have hrec := ih stm st2 h
      rw [hrec, hstep, List.count_cons]
      split_ifs <;> simp_all <;> omega

/-- After a nonempty scan, the label length is zero exactly when the last
byte scanned was a dot. -/
theorem dnsCharLoop_last (nc : Bool) : ∀ bs st st2, dnsCharLoop nc bs st = some st2 → bs ≠ [] →
    (st2.labelLength = 0 ↔ bs.getLast? = some 46) := by
  intro bs
  induction bs with
  | nil => intro st st2 _ hne; exact absurd rfl hne
  | cons c cs ih =>
    intro st st2 h _
    rw [dnsCharLoop] at h
    cases hs : dnsCharStep nc c st with
    | none => rw [hs] at h; exact absurd h (by simp)
    | some stm =>
      rw [hs] at h
      cases cs with
      | nil =>
        simp only [dnsCharLoop, Option.some.injEq] at h
        subst h
        have hstep := (dnsCharStep_some nc c st stm hs).2.1
        simp only [List.getLast?_singleton, Option.some.injEq]
        exact hstep
      | cons d ds =>
        rw [List.getLast?_cons_cons]
        exact ih stm st2 h (by simp)

/-- What passing the post-loop checks implies. -/
theorem dnsTailChecks_true_elim (hostname : List Nat) (isW : Bool) (stF : DNSState)
    (mt : ValidDNSIDMatchType) (h : dnsTailChecks hostname isW stF mt = true) :
    (stF.labelLength ≠ 0 ∨ mt = ValidDNSIDMatchType.ReferenceID)
    ∧ stF.labelEndsWithHyphen = false
    ∧ stF.labelIsAllNumeric = false
    ∧ (isW = true →
        3 ≤ (if stF.labelLength = 0 then stF.dotCount else stF.dotCount + 1)
        ∧ StartsWithIDNALabel hostname = false) := by
  unfold dnsTailChecks at h
  by_cases hA : stF.labelLength = 0 ∧ mt ≠ ValidDNSIDMatchType.ReferenceID
  · rw [if_pos hA] at h
    exact absurd h (by simp)
  · rw [if_neg hA] at h
    cases hB : stF.labelEndsWithHyphen with
    | true => rw [hB] at h; simp at h
    | false =>
      rw [hB] at h
      simp only [Bool.false_eq_true, if_false] at h
      cases hC : stF.labelIsAllNumeric with
      | true => rw [hC] at h; simp at h
      | false =>
        rw [hC] at h
        simp only [Bool.false_eq_true, if_false] at h
        refine ⟨?_, rfl, rfl, ?_⟩
        · by_cases hll : stF.labelLength = 0
          · right
            by_contra hmt
            exact hA ⟨hll, hmt⟩
          · left; exact hll
        · intro hw
          rw [hw] at h
          simp only [if_true] at h
          by_cases hD : (if stF.labelLength = 0 then stF.dotCount else stF.dotCount + 1) < 3
          · rw [if_pos hD] at h
            exact absurd h (by simp)
          · rw [if_neg hD] at h
            cases hE : StartsWithIDNALabel hostname with
            | true => rw [hE] at h; simp at h
            | false => exact ⟨by omega, rfl⟩

/-- The post-loop checks pass for a non-wildcard scan whose final state has a
nonzero label length, no trailing hyphen and a non-numeric last label. -/
theorem dnsTailChecks_intro (hostname : List Nat) (stF : DNSState)
    (mt : ValidDNSIDMatchType) (hll : stF.labelLength ≠ 0)
    (hhy : stF.labelEndsWithHyphen = false) (hnum : stF.labelIsAllNumeric = false) :
    dnsTailChecks hostname false stF mt = true := by
  unfold dnsTailChecks
  simp [hll, hhy, hnum]

/-! Claim C5. -/

/-- A string starting with an asterisk fails the character loop at once. -/
theorem dnsCharLoop_star_head (nc : Bool) (rest : List Nat) (st : DNSState) :
    dnsCharLoop nc (42 :: rest) st = none := by
  rw [dnsCharLoop, dnsCharStep_star]

/-- C5: a leading wildcard label is accepted only in PresentedID mode, and
an accepted wildcard DNS-ID starts with an asterisk immediately followed by
a dot, carries at least two further dots (hence at least two further
labels, since labels are nonempty and a valid presented ID has no trailing
dot), and does not start with the IDN A-label marker xn--. -/
theorem c5_wildcard_only_presented_and_shape :
    (∀ rest mt, mt = ValidDNSIDMatchType.ReferenceID ∨ mt = ValidDNSIDMatchType.NameConstraint →
       IsValidDNSID (42 :: rest) mt = false)
    ∧ (∀ s, IsValidDNSID s ValidDNSIDMatchType.PresentedID = true → s.head? = some 42 →
       (∃ rest, s = 42 :: 46 :: rest) ∧ 2 ≤ s.count 46 ∧ StartsWithIDNALabel s = false) := by
  constructor
  · intro rest mt hmt
    unfold IsValidDNSID
    by_cases hlen : 253 < (42 :: rest).length
    · rw [if_pos hlen]
    · rw [if_neg hlen, if_neg (by simp), if_neg ?_]
      · simp [dnsTail, dnsCharLoop_star_head]
      · rcases hmt with rfl | rfl <;> simp
  · intro s h hh
    unfold IsValidDNSID at h
    by_cases hlen : 253 < s.length
    · rw [if_pos hlen] at h
      exact absurd h (by simp)
    · rw [if_neg hlen, if_neg (by simp), if_pos ⟨rfl, hh⟩] at h
      split at h
      · next _x hd tl =>
        simp only [List.head?_cons, Option.some.injEq] at hh
        subst hh
        unfold dnsTail at h
        cases tl with
        | nil => simp at h
        | cons b bs =>
          cases hcl : dnsCharLoop
              (decide (ValidDNSIDMatchType.PresentedID = ValidDNSIDMatchType.NameConstraint))
              (b :: bs)
              { dotCount := 1, labelLength := 0, labelIsAllNumeric := false,
                labelEndsWithHyphen := false, isFirstByte := false } with
          | none => rw [hcl] at h; exact absurd h (by simp)
          | some stF =>
            rw [hcl] at h
            have hel := dnsTailChecks_true_elim _ true stF ValidDNSIDMatchType.PresentedID h
            have hll : stF.labelLength ≠ 0 := by
              rcases hel.1 with h0 | h0
              · exact h0
              · exact absurd h0 (by simp)
            have hcount := dnsCharLoop_dotCount _ _ _ _ hcl
            have hwc := hel.2.2.2 rfl
            rw [if_neg hll] at hwc
            refine ⟨⟨b :: bs, rfl⟩, ?_, hwc.2⟩
            have : (42 :: 46 :: b :: bs).count 46 = 1 + (b :: bs).count 46 := by
              simp [List.count_cons]
              omega
            simp only at hcount
            omega
      · exact absurd h (by simp)

/-- Witness for C5 at a concrete input: the wildcard name *.a.b, rejected in
ReferenceID mode and dissected in PresentedID mode. -/
theorem c5_witness :
    IsValidDNSID [42, 46, 97, 46, 98] ValidDNSIDMatchType.ReferenceID = false
    ∧ ((∃ rest, ([42, 46, 97, 46, 98] : List Nat) = 42 :: 46 :: rest)
       ∧ 2 ≤ ([42, 46, 97, 46, 98] : List Nat).count 46
       ∧ StartsWithIDNALabel [42, 46, 97, 46, 98] = false) :=
  ⟨c5_wildcard_only_presented_and_shape.1 [46, 97, 46, 98] ValidDNSIDMatchType.ReferenceID
     (Or.inl rfl),
   c5_wildcard_only_presented_and_shape.2 [42, 46, 97, 46, 98] (by decide) (by decide)⟩

/-! Claim C6. -/

/-- What reference DNS-ID validity means: a nonempty string of at most 253
bytes whose character scan succeeds and passes the final checks (the
wildcard branch is unreachable in ReferenceID mode). -/
theorem validRef_elim (s : List Nat)
    (h : IsValidDNSID s ValidDNSIDMatchType.ReferenceID = true) :
    ¬ 253 < s.length ∧ s ≠ [] ∧ ∃ stF,
      dnsCharLoop false s
        { dotCount := 0, labelLength := 0, labelIsAllNumeric := false,
          labelEndsWithHyphen := false, isFirstByte := true } = some stF ∧
      dnsTailChecks s false stF ValidDNSIDMatchType.ReferenceID = true := by
  unfold IsValidDNSID at h
  by_cases hlen : 253 < s.length
  · rw [if_pos hlen] at h
    exact absurd h (by simp)
  · rw [if_neg hlen, if_neg (by simp), if_neg (by simp)] at h
    unfold dnsTail at h
    cases s with
    | nil => exact absurd h (by simp)
    | cons c cs =>
      have hdec : (decide (ValidDNSIDMatchType.ReferenceID =
          ValidDNSIDMatchType.NameConstraint)) = false := rfl
      rw [hdec] at h
      cases hcl : dnsCharLoop false (c :: cs)
          { dotCount := 0, labelLength := 0, labelIsAllNumeric := false,
            labelEndsWithHyphen := false, isFirstByte := true } with
      | none => rw [hcl] at h; exact absurd h (by simp)
      | some stF =>
        rw [hcl] at h
        exact ⟨hlen, List.cons_ne_nil c cs, ⟨stF, rfl, h⟩⟩

/-- Presented DNS-ID validity from a successful non-wildcard scan. -/
theorem validPres_intro (s : List Nat) (hlen : ¬ 253 < s.length) (hne : s ≠ [])
    (hstar : s.head? ≠ some 42) (stF : DNSState)
    (hcl : dnsCharLoop false s
      { dotCount := 0, labelLength := 0, labelIsAllNumeric := false,
        labelEndsWithHyphen := false, isFirstByte := true } = some stF)
    (hll : stF.labelLength ≠ 0) (hhy : stF.labelEndsWithHyphen = false)
    (hnum : stF.labelIsAllNumeric = false) :
    IsValidPresentedDNSID s = true := by
  unfold IsValidPresentedDNSID IsValidDNSID
  rw [if_neg hlen, if_neg (by simp), if_neg (by simp [hstar])]
  unfold dnsTail
  cases s with
  | nil => exact absurd rfl hne
  | cons c cs =>
    have hdec : (decide (ValidDNSIDMatchType.PresentedID =
        ValidDNSIDMatchType.NameConstraint)) = false := rfl
    rw [hdec, hcl]
    exact dnsTailChecks_intro (c :: cs) stF ValidDNSIDMatchType.PresentedID hll hhy hnum

/-- The comparison loop accepts a string against itself when it is nonempty
and does not end with a dot. -/
theorem dnsMatchLoop_self : ∀ (s : List Nat) (t : ValidDNSIDMatchType), s ≠ [] →
    s.getLast? ≠ some 46 → dnsMatchLoop s s t = true := by
  intro s
  induction s with
  | nil => intro t h _; exact absurd rfl h
  | cons c cs ih =>
    intro t _ hlast
    by_cases hcs : cs = []
    · subst hcs
      have hc : c ≠ 46 := by simpa using hlast
      simp [dnsMatchLoop, hc, dnsMatchRefTail]
    · rw [dnsMatchLoop, if_neg (by simp), if_neg hcs]
      obtain ⟨d, ds, rfl⟩ := List.exists_cons_of_ne_nil hcs
      exact ih t hcs (by rwa [List.getLast?_cons_cons] at hlast)

/-- Counterexample to C6 as stated: the absolute name a. is a valid
reference DNS-ID, yet matching it against itself in ReferenceID mode fails,
because absolute strings are never valid presented DNS-IDs. -/
theorem c6_counterexample :
    IsValidReferenceDNSID [97, 46] = true
    ∧ PresentedDNSIDMatchesReferenceDNSID [97, 46] ValidDNSIDMatchType.ReferenceID [97, 46]
        = false := by decide

/-- C6 amended: the self-match round-trip holds for every valid reference
DNS-ID that does not end with a dot (relative names); absolute reference
DNS-IDs fail it because the presented side rejects a trailing dot. -/
theorem c6_round_trip_relative (s : List Nat) (href : IsValidReferenceDNSID s = true)
    (hlast : s.getLast? ≠ some 46) :
    PresentedDNSIDMatchesReferenceDNSID s ValidDNSIDMatchType.ReferenceID s = true := by
  have href2 : IsValidDNSID s ValidDNSIDMatchType.ReferenceID = true := href
  obtain ⟨hlen, hne, stF, hcl, hchecks⟩ := validRef_elim s href2
  have hel := dnsTailChecks_true_elim s false stF _ hchecks
  have hll : stF.labelLength ≠ 0 := by
    intro h0
    exact hlast ((dnsCharLoop_last false s _ stF hcl hne).mp h0)
  have hstar : s.head? ≠ some 42 := by
    cases s with
    | nil => simp
    | cons c cs =>
      intro hc
      have hc2 : c = 42 := by simpa using hc
      subst hc2
      exact (dnsCharLoop_ne_star false _ _ _ hcl 42 (by simp)) rfl
  have hpres : IsValidPresentedDNSID s = true :=
    validPres_intro s hlen hne hstar stF hcl hll hel.2.1 hel.2.2.1
  unfold PresentedDNSIDMatchesReferenceDNSID
  rw [if_neg (by simp [hpres]), if_neg (by simp [href2])]
  obtain ⟨c, cs, rfl⟩ := List.exists_cons_of_ne_nil hne
  have hc42 : c ≠ 42 := by
    intro hc
    subst hc
    exact hstar rfl
  show dnsMatchTail (c :: cs) (c :: cs) ValidDNSIDMatchType.ReferenceID = true
  unfold dnsMatchTail
  split
  · next p ps heq =>
    injection heq with h1 h2
    exact absurd h1 hc42
  · exact dnsMatchLoop_self (c :: cs) _ hne hlast

/-- Witness for the amended C6 at a concrete input: the relative reference
DNS-ID a.b matches itself. -/
theorem c6_witness :
    PresentedDNSIDMatchesReferenceDNSID [97, 46, 98] ValidDNSIDMatchType.ReferenceID [97, 46, 98]
      = true :=
  c6_round_trip_relative [97, 46, 98] (by decide) (by decide)

/-! Claim C9. -/

/-- ReadGeneralName fails only with ErrBadDer. -/
theorem readGeneralName_error (ns : List Nat) (e : Err)
    (h : ReadGeneralName ns = Except.error e) : e = Err.BadDer := by
  unfold ReadGeneralName at h
  cases hd : derReadTLV ns with
  | none =>
    rw [hd] at h
    simp only [Except.error.injEq] at h
    exact h.symm
  | some tvr =>
    obtain ⟨t, v, rest⟩ := tvr
    rw [hd] at h
    simp only at h
    split_ifs at h <;> simp_all

/-- SearchWithinAVA never reports FatalLibraryFailure when the reference
type is dNSName or iPAddress (the hostname-checking modes). -/
theorem searchWithinAVA_no_fatal (ava : List Nat) (rt : GeneralNameType) (rid : List Nat)
    (m : MatchResult) (hrt : rt = GeneralNameType.dNSName ∨ rt = GeneralNameType.iPAddress) :
    SearchWithinAVA ava rt rid m ≠ Except.error Err.FatalLibraryFailure := by
  rcases hrt with rfl | rfl <;>
  · intro h
    unfold SearchWithinAVA at h
    repeat any_goals split at h
    all_goals simp_all [MatchPresentedIDWithReferenceID]

/-- The SAN loop never reports FatalLibraryFailure in the hostname-checking
modes. -/
theorem sanLoop_no_fatal : ∀ fuel ns m saw rt rid,
    rt = GeneralNameType.dNSName ∨ rt = GeneralNameType.iPAddress →
    sanLoop fuel ns m saw rt rid ≠ Except.error Err.FatalLibraryFailure := by
  intro fuel
  induction fuel with
  | zero => intro ns m saw rt rid _; simp [sanLoop]
  | succ fuel ih =>
    intro ns m saw rt rid hrt h
    rw [sanLoop] at h
    cases hr : ReadGeneralName ns with
    | error e =>
      rw [hr] at h
      simp only [Except.error.injEq] at h
      rw [readGeneralName_error ns e hr] at h
      exact absurd h (by simp)
    | ok tvr =>
      obtain ⟨t, v, rest⟩ := tvr
      rw [hr] at h
      simp only at h
      have hnc : rt ≠ GeneralNameType.nameConstraints := by
        rcases hrt with rfl | rfl <;> simp
      rw [if_neg hnc] at h
      by_cases hteq : t = rt
      · rw [if_pos hteq] at h
        subst hteq
        have hok : ∃ b, MatchPresentedIDWithReferenceID t v rid = Except.ok b := by
          rcases hrt with rfl | rfl <;> exact ⟨_, rfl⟩
        obtain ⟨b, hb⟩ := hok
        rw [hb] at h
        simp only at h
        by_cases hbm : b = true
        · rw [if_pos hbm] at h
          exact absurd h (by simp)
        · rw [if_neg hbm] at h
          by_cases hrest : rest = []
          · rw [if_pos hrest] at h
            exact absurd h (by simp)
          · rw [if_neg hrest] at h
            exact ih rest MatchResult.Mismatch _ t rid hrt h
      · rw [if_neg hteq] at h
        by_cases hrest : rest = []
        · rw [if_pos hrest] at h
          exact absurd h (by simp)
        · rw [if_neg hrest] at h
          exact ih rest m _ rt rid hrt h

/-- SearchWithinRDN never reports FatalLibraryFailure in the
hostname-checking modes. -/
theorem searchWithinRDN_no_fatal : ∀ fuel rdn rt rid m,
    rt = GeneralNameType.dNSName ∨ rt = GeneralNameType.iPAddress →
    SearchWithinRDN fuel rdn rt rid m ≠ Except.error Err.FatalLibraryFailure := by
  intro fuel
  induction fuel with
  | zero => intro rdn rt rid m _; simp [SearchWithinRDN]
  | succ fuel ih =>
    intro rdn rt rid m hrt h
    rw [SearchWithinRDN] at h
    cases hp : expectTagAndGetValue rdn 48 with
    | none => rw [hp] at h; exact absurd h (by simp)
    | some vr =>
      obtain ⟨ava, rest⟩ := vr
      rw [hp] at h
      simp only at h
      cases ha : SearchWithinAVA ava rt rid m with
      | error e =>
        rw [ha] at h
        simp only [Except.error.injEq] at h
        subst h
        exact searchWithinAVA_no_fatal ava rt rid m hrt ha
      | ok m2 =>
        rw [ha] at h
        simp only at h
        by_cases hrest : rest = []
        · rw [if_pos hrest] at h
          exact absurd h (by simp)
        · rw [if_neg hrest] at h
          exact ih rest rt rid m2 hrt h

/-- The RDN-sequence walk never reports FatalLibraryFailure in the
hostname-checking modes. -/
theorem searchSubjectRDNs_no_fatal : ∀ fuel rdns rt rid m,
    rt = GeneralNameType.dNSName ∨ rt = GeneralNameType.iPAddress →
    searchSubjectRDNs fuel rdns rt rid m ≠ Except.error Err.FatalLibraryFailure := by
  intro fuel
  induction fuel with
  | zero => intro rdns rt rid m _; simp [searchSubjectRDNs]
  | succ fuel ih =>
    intro rdns rt rid m hrt h
    rw [searchSubjectRDNs] at h
    cases hp : expectTagAndGetValue rdns 49 with
    | none => rw [hp] at h; exact absurd h (by simp)
    | some vr =>
      obtain ⟨rdn, rest⟩ := vr
      rw [hp] at h
      simp only at h
      cases hw : SearchWithinRDN (rdn.length + 1) rdn rt rid m with
      | error e =>
        rw [hw] at h
        simp only [Except.error.injEq] at h
        subst h
        exact searchWithinRDN_no_fatal (rdn.length + 1) rdn rt rid m hrt hw
      | ok m2 =>
        rw [hw] at h
        simp only at h
        by_cases hrest : rest = []
        · rw [if_pos hrest] at h
          exact absurd h (by simp)
        · rw [if_neg hrest] at h
          exact ih rest rt rid m2 hrt h

/-- SearchNames never reports FatalLibraryFailure in the hostname-checking
modes. -/
theorem searchNames_no_fatal (san : Option (List Nat)) (subject : List Nat)
    (rt : GeneralNameType) (rid : List Nat) (fb : Bool)
    (hrt : rt = GeneralNameType.dNSName ∨ rt = GeneralNameType.iPAddress) :
    SearchNames san subject rt rid fb ≠ Except.error Err.FatalLibraryFailure := by
  have hnc : rt ≠ GeneralNameType.nameConstraints := by
    rcases hrt with rfl | rfl <;> simp
  have hafter : ∀ mr saw, searchNamesAfterSAN subject rt rid fb mr saw ≠
      Except.error Err.FatalLibraryFailure := by
    intro mr saw h
    unfold searchNamesAfterSAN at h
    rw [if_neg hnc] at h
    simp only at h
    by_cases hsaw : saw = true ∨ fb = false
    · rw [if_pos hsaw] at h
      exact absurd h (by simp)
    · rw [if_neg hsaw] at h
      unfold searchSubject at h
      cases hp : expectTagAndGetValue subject 48 with
      | none => rw [hp] at h; exact absurd h (by simp)
      | some vr =>
        obtain ⟨rdns, rest2⟩ := vr
        rw [hp] at h
        simp only at h
        by_cases hr : rdns = []
        · rw [if_pos hr] at h
          exact absurd h (by simp)
        · rw [if_neg hr] at h
          exact searchSubjectRDNs_no_fatal (rdns.length + 1) rdns rt rid mr hrt h
  intro h
  unfold SearchNames at h
  cases san with
  | none => exact hafter MatchResult.NoNamesOfGivenType false h
  | some sanv =>
    simp only at h
    cases hex : expectTagAndGetValueAtEnd sanv 48 with
    | none => rw [hex] at h; exact absurd h (by simp)
    | some altNames =>
      rw [hex] at h
      simp only at h
      cases hsl : sanLoop (altNames.length + 1) altNames MatchResult.NoNamesOfGivenType false
          rt rid with
      | error e =>
        rw [hsl] at h
        simp only [Except.error.injEq] at h
        subst h
        exact sanLoop_no_fatal (altNames.length + 1) altNames MatchResult.NoNamesOfGivenType
          false rt rid hrt hsl
      | ok sr =>
        rw [hsl] at h
        cases sr with
        | earlyMatch => exact absurd h (by simp)
        | looped mr saw => exact hafter mr saw h

/-- Counterexample to C9 as stated: a DER-valid certificate whose SAN holds
an rfc822Name, checked against DER-valid name constraints holding a
permitted rfc822Name subtree, makes CheckNameConstraints return
FatalLibraryFailure (the unimplemented rfc822Name path of
CheckPresentedIDConformsToNameConstraintsSubtrees). -/
theorem c9_counterexample :
    CheckNameConstraints [48, 7, 160, 5, 48, 3, 129, 1, 97]
      [⟨some [48, 3, 129, 1, 97], [48, 0], true⟩] KeyPurposeId.id_kp_serverAuth
      = Except.error Err.FatalLibraryFailure := by decide

/-- C9 amended: CheckCertHostname never returns FatalLibraryFailure, for any
SAN, subject and hostname whatsoever; the rfc822Name-constraint fatal path
is reachable only through CheckNameConstraints. -/
theorem c9_check_cert_hostname_no_fatal (san : Option (List Nat)) (subject hostname : List Nat) :
    CheckCertHostname san subject hostname ≠ Except.error Err.FatalLibraryFailure := by
  intro h
  unfold CheckCertHostname at h
  by_cases hv : IsValidReferenceDNSID hostname = true
  · rw [if_pos hv] at h
    cases hs : SearchNames san subject GeneralNameType.dNSName hostname true with
    | error e =>
      rw [hs] at h
      simp only [Except.error.injEq] at h
      subst h
      exact searchNames_no_fatal san subject GeneralNameType.dNSName hostname true
        (Or.inl rfl) hs
    | ok mr =>
      rw [hs] at h
      cases mr <;> simp at h
  · rw [if_neg hv] at h
    cases h6 : ParseIPv6Address hostname with
    | some ip =>
      rw [h6] at h
      simp only at h
      cases hs : SearchNames san subject GeneralNameType.iPAddress ip false with
      | error e =>
        rw [hs] at h
        simp only [Except.error.injEq] at h
        subst h
        exact searchNames_no_fatal san subject GeneralNameType.iPAddress ip false
          (Or.inr rfl) hs
      | ok mr =>
        rw [hs] at h
        cases mr <;> simp at h
    | none =>
      rw [h6] at h
      simp only at h
      cases h4 : ParseIPv4Address hostname with
      | some ip =>
        rw [h4] at h
        simp only at h
        cases hs : SearchNames san subject GeneralNameType.iPAddress ip true with
        | error e =>
          rw [hs] at h
          simp only [Except.error.injEq] at h
          subst h
          exact searchNames_no_fatal san subject GeneralNameType.iPAddress ip true
            (Or.inr rfl) hs
        | ok mr =>
          rw [hs] at h
          cases mr <;> simp at h
      | none =>
        rw [h4] at h
        simp at h

/-- Witness for the amended C9 at a concrete input. -/
theorem c9_witness :
    CheckCertHostname (some [48, 3, 129, 1, 97]) [48, 0] [97, 46, 98]
      ≠ Except.error Err.FatalLibraryFailure :=
  c9_check_cert_hostname_no_fatal (some [48, 3, 129, 1, 97]) [48, 0] [97, 46, 98]

/-! Claim C3. -/

/-- Lowercasing maps only the dot to the dot. -/
theorem lower_eq_dot (b : Nat) (h : LocaleInsensitveToLower b = 46) : b = 46 := by
  unfold LocaleInsensitveToLower at h
  split_ifs at h <;> omega

/-- In NameConstraint mode the comparison loop is exactly a case-insensitive
full comparison: it succeeds when the presented cursor is nonempty, the two
cursors agree byte for byte under lowercasing (hence have equal lengths, the
loop tolerating no leftover reference bytes in this mode), and the presented
cursor does not end with a dot. -/
theorem dnsMatchLoop_nc_iff : ∀ ps rs : List Nat,
    dnsMatchLoop ps rs ValidDNSIDMatchType.NameConstraint = true ↔
    (ps ≠ [] ∧ ps.map LocaleInsensitveToLower = rs.map LocaleInsensitveToLower
     ∧ ps.getLast? ≠ some 46) := by
  intro ps
  induction ps with
  | nil => intro rs; simp [dnsMatchLoop]
  | cons p ps2 ih =>
    intro rs
    cases rs with
    | nil => simp [dnsMatchLoop]
    | cons r rs2 =>
      by_cases hpr : LocaleInsensitveToLower p = LocaleInsensitveToLower r
      · by_cases hps2 : ps2 = []
        · subst hps2
          rw [dnsMatchLoop, if_neg (by simpa using hpr), if_pos rfl]
          by_cases hp46 : p = 46
          · rw [if_pos hp46]
            subst hp46
            constructor
            · intro h; exact absurd h (by simp)
            · rintro ⟨_, _, hlast⟩
              exact absurd (by simp : ([46] : List Nat).getLast? = some 46) hlast
          · rw [if_neg hp46]
            cases rs2 with
            | nil =>
              have hrt : dnsMatchRefTail [] ValidDNSIDMatchType.NameConstraint = true := rfl
              rw [hrt]
              constructor
              · intro _
                exact ⟨by simp, by simp [hpr], by simpa using hp46⟩
              · intro _; rfl
            | cons r2 rs3 =>
              have hrt : dnsMatchRefTail (r2 :: rs3) ValidDNSIDMatchType.NameConstraint
                  = false := rfl
              rw [hrt]
              constructor
              · intro h; exact absurd h (by simp)
              · rintro ⟨_, hmap, _⟩
                simp at hmap
        · rw [dnsMatchLoop, if_neg (by simpa using hpr), if_neg hps2, ih rs2]
          obtain ⟨q, qs, rfl⟩ := List.exists_cons_of_ne_nil hps2
          constructor
          · rintro ⟨_, hmap, hlast⟩
            refine ⟨by simp, ?_, ?_⟩
            · simp only [List.map_cons] at hmap ⊢
              rw [hpr, ← hmap]
            · rwa [List.getLast?_cons_cons]
          · rintro ⟨_, hmap, hlast⟩
            simp only [List.map_cons, List.cons.injEq] at hmap
            refine ⟨by simp, ?_, ?_⟩
            · simp only [List.map_cons]
              exact hmap.2
            · rwa [List.getLast?_cons_cons] at hlast
      · rw [dnsMatchLoop, if_pos (by simpa using hpr)]
        constructor
        · intro h; exact absurd h (by simp)
        · rintro ⟨_, hmap, _⟩
          simp only [List.map_cons, List.cons.injEq] at hmap
          exact absurd hmap.1 hpr

/-- A nonempty suffix has the same last element as the whole list. -/
theorem getLast?_drop_ne_nil (l : List Nat) (k : Nat) (h : l.drop k ≠ []) :
    (l.drop k).getLast? = l.getLast? := by
  conv_rhs => rw [← List.take_append_drop k l]
  rw [List.getLast?_append_of_ne_nil _ h]

/-- What presented DNS-ID validity means: either a wildcard label followed
by a nonempty scanned remainder, or a plain nonempty scan not starting with
an asterisk; in both cases the final checks pass. -/
theorem validPres_elim (s : List Nat) (h : IsValidPresentedDNSID s = true) :
    (∃ rest stF, s = 42 :: 46 :: rest ∧ rest ≠ [] ∧
       dnsCharLoop false rest
         { dotCount := 1, labelLength := 0, labelIsAllNumeric := false,
           labelEndsWithHyphen := false, isFirstByte := false } = some stF ∧
       dnsTailChecks s true stF ValidDNSIDMatchType.PresentedID = true)
    ∨ (∃ stF, s ≠ [] ∧ s.head? ≠ some 42 ∧
       dnsCharLoop false s
         { dotCount := 0, labelLength := 0, labelIsAllNumeric := false,
           labelEndsWithHyphen := false, isFirstByte := true } = some stF ∧
       dnsTailChecks s false stF ValidDNSIDMatchType.PresentedID = true) := by
  unfold IsValidPresentedDNSID IsValidDNSID at h
  by_cases hlen : 253 < s.length
  · rw [if_pos hlen] at h
    exact absurd h (by simp)
  · rw [if_neg hlen, if_neg (by simp)] at h
    by_cases hw : s.head? = some 42
    · rw [if_pos ⟨rfl, hw⟩] at h
      split at h
      · next _x hd tl =>
        have hd42 : hd = 42 := by simpa using hw
        subst hd42
        unfold dnsTail at h
        cases tl with
        | nil => simp at h
        | cons b bs =>
          have hdec : (decide (ValidDNSIDMatchType.PresentedID =
              ValidDNSIDMatchType.NameConstraint)) = false := rfl
          rw [hdec] at h
          cases hcl : dnsCharLoop false (b :: bs)
              { dotCount := 1, labelLength := 0, labelIsAllNumeric := false,
                labelEndsWithHyphen := false, isFirstByte := false } with
          | none => rw [hcl] at h; simp at h
          | some stF =>
            rw [hcl] at h
            exact Or.inl ⟨b :: bs, stF, rfl, by simp, hcl, h⟩
      · exact absurd h (by simp)
    · rw [if_neg (by simp [hw])] at h
      unfold dnsTail at h
      cases s with
      | nil => simp at h
      | cons c cs =>
        have hdec : (decide (ValidDNSIDMatchType.PresentedID =
            ValidDNSIDMatchType.NameConstraint)) = false := rfl
        rw [hdec] at h
        cases hcl : dnsCharLoop false (c :: cs)
            { dotCount := 0, labelLength := 0, labelIsAllNumeric := false,
              labelEndsWithHyphen := false, isFirstByte := true } with
        | none => rw [hcl] at h; simp at h
        | some stF =>
          rw [hcl] at h
          exact Or.inr ⟨stF, by simp, hw, rfl, h⟩

/-- A valid presented DNS-ID is nonempty. -/
theorem validPres_ne_nil (s : List Nat) (h : IsValidPresentedDNSID s = true) : s ≠ [] := by
  rcases validPres_elim s h with ⟨rest, stF, rfl, _⟩ | ⟨stF, hne, _⟩
  · simp
  · exact hne

/-- A valid presented DNS-ID has no asterisk beyond its first byte. -/
theorem validPres_no_inner_star (s : List Nat) (h : IsValidPresentedDNSID s = true) :
    ∀ b ∈ s.drop 1, b ≠ 42 := by
  rcases validPres_elim s h with ⟨rest, stF, rfl, hne, hcl, _⟩ | ⟨stF, hne, hw, hcl, _⟩
  · intro b hb
    have hd : (42 :: 46 :: rest).drop 1 = 46 :: rest := rfl
    rw [hd] at hb
    rcases List.mem_cons.mp hb with rfl | hmem
    · omega
    · exact dnsCharLoop_ne_star false rest _ stF hcl b hmem
  · intro b hb
    exact dnsCharLoop_ne_star false s _ stF hcl b (List.drop_subset 1 s hb)

/-- A valid presented DNS-ID does not end with a dot. -/
theorem validPres_last_not_dot (s : List Nat) (h : IsValidPresentedDNSID s = true) :
    s.getLast? ≠ some 46 := by
  rcases validPres_elim s h with ⟨rest, stF, rfl, hne, hcl, hchk⟩ | ⟨stF, hne, hw, hcl, hchk⟩
  · have hel := dnsTailChecks_true_elim _ true stF _ hchk
    have hll : stF.labelLength ≠ 0 := by
      rcases hel.1 with h0 | h0
      · exact h0
      · exact absurd h0 (by simp)
    intro hcontra
    have hrest : rest.getLast? = some 46 := by
      obtain ⟨d, ds, rfl⟩ := List.exists_cons_of_ne_nil hne
      rwa [List.getLast?_cons_cons, List.getLast?_cons_cons] at hcontra
    exact hll ((dnsCharLoop_last false rest _ stF hcl hne).mpr hrest)
  · have hel := dnsTailChecks_true_elim _ false stF _ hchk
    have hll : stF.labelLength ≠ 0 := by
      rcases hel.1 with h0 | h0
      · exact h0
      · exact absurd h0 (by simp)
    intro hcontra
    exact hll ((dnsCharLoop_last false s _ stF hcl hne).mpr hcontra)

/-- One unfolding of the character loop on a cons cell. -/
theorem dnsCharLoop_cons_step (nc : Bool) (b : Nat) (bs : List Nat) (st : DNSState) :
    dnsCharLoop nc (b :: bs) st =
      match dnsCharStep nc b st with
      | none => none
      | some st2 => dnsCharLoop nc bs st2 := rfl

/-- What validity of a leading-dot name constraint implies about the bytes
after the dot: they are nonempty and do not start with another dot or an
asterisk. -/
theorem validNC_dot_elim (rs : List Nat)
    (h : IsValidDNSID (46 :: rs) ValidDNSIDMatchType.NameConstraint = true) :
    rs ≠ [] ∧ rs.head? ≠ some 46 ∧ rs.head? ≠ some 42 := by
  unfold IsValidDNSID at h
  by_cases hlen : 253 < (46 :: rs).length
  · rw [if_pos hlen] at h
    exact absurd h (by simp)
  · rw [if_neg hlen, if_neg (by simp), if_neg (by simp)] at h
    unfold dnsTail at h
    have hdec : (decide (ValidDNSIDMatchType.NameConstraint =
        ValidDNSIDMatchType.NameConstraint)) = true := rfl
    rw [hdec] at h
    have hstep : dnsCharStep true 46
        { dotCount := 0, labelLength := 0, labelIsAllNumeric := false,
          labelEndsWithHyphen := false, isFirstByte := true } =
        some { dotCount := 1, labelLength := 0, labelIsAllNumeric := false,
               labelEndsWithHyphen := false, isFirstByte := false } := by decide
    simp only [dnsCharLoop_cons_step, hstep] at h
    cases rs with
    | nil => simp [dnsCharLoop, dnsTailChecks] at h
    | cons c cs =>
      refine ⟨by simp, ?_, ?_⟩
      · intro hc
        have hc46 : c = 46 := by simpa using hc
        subst hc46
        have hstep2 : dnsCharStep true 46
            { dotCount := 1, labelLength := 0, labelIsAllNumeric := false,
              labelEndsWithHyphen := false, isFirstByte := false } = none := by decide
        simp only [dnsCharLoop_cons_step, hstep2] at h
        exact absurd h (by simp)
      · intro hc
        have hc42 : c = 42 := by simpa using hc
        subst hc42
        have hstep2 : dnsCharStep true 42
            { dotCount := 1, labelLength := 0, labelIsAllNumeric := false,
              labelEndsWithHyphen := false, isFirstByte := false } = none := by decide
        simp only [dnsCharLoop_cons_step, hstep2] at h
        exact absurd h (by simp)

/-- With both identifiers valid, the matcher in NameConstraint mode is the
alignment helper. -/
theorem matcher_nc_eq (p r : List Nat) (hp : IsValidPresentedDNSID p = true)
    (hr : IsValidDNSID r ValidDNSIDMatchType.NameConstraint = true) :
    PresentedDNSIDMatchesReferenceDNSID p ValidDNSIDMatchType.NameConstraint r =
      dnsMatchNameConstraint p r := by
  unfold PresentedDNSIDMatchesReferenceDNSID
  rw [if_neg (by simp [hp]), if_neg (by simp [hr])]

/-- After skipping a nonzero prefix of a valid presented DNS-ID, the
remaining comparison in NameConstraint mode is exactly a case-insensitive
equality of the suffix with the constraint: the suffix cannot start with an
asterisk and cannot end with a dot, so the wildcard branch and the two
trailing rejections never interfere. -/
theorem dnsMatchTail_drop_nc (p r : List Nat) (k : Nat)
    (hp : IsValidPresentedDNSID p = true) (h1 : 1 ≤ k) (hlt : k < p.length) :
    (dnsMatchTail (p.drop k) r ValidDNSIDMatchType.NameConstraint = true ↔
      (p.drop k).map LocaleInsensitveToLower = r.map LocaleInsensitveToLower) := by
  have hne : p.drop k ≠ [] := by
    intro hnil
    have := List.drop_eq_nil_iff.mp hnil
    omega
  have hlast : (p.drop k).getLast? ≠ some 46 := by
    rw [getLast?_drop_ne_nil p k hne]
    exact validPres_last_not_dot p hp
  have hstar : ∀ b ∈ p.drop k, b ≠ 42 := by
    intro b hb
    apply validPres_no_inner_star p hp
    have hdd : p.drop k = (p.drop 1).drop (k - 1) := by
      rw [List.drop_drop]
      congr 1
      omega
    rw [hdd] at hb
    exact List.drop_subset _ _ hb
  unfold dnsMatchTail
  split
  · next p2 ps heq =>
    exact absurd rfl (hstar 42 (by rw [heq]; exact List.mem_cons_self 42 ps))
  · rw [dnsMatchLoop_nc_iff]
    constructor
    · rintro ⟨_, hmap, _⟩
      exact hmap
    · intro hmap
      exact ⟨hne, hmap, hlast⟩

/-- C3: in NameConstraint mode, for valid inputs, an empty constraint
matches every valid presented DNS-ID; for a strictly longer presented ID
and a constraint not starting with a dot, the match holds exactly when the
presented byte just before the aligned suffix is a dot and the aligned
suffix equals the constraint case-insensitively; for a constraint starting
with a dot the match is a pure case-insensitive suffix comparison; and a
presented ID equal to a dotted constraint without its leading dot never
matches. -/
theorem c3_name_constraint_dns_matching :
    (∀ p, IsValidPresentedDNSID p = true →
       PresentedDNSIDMatchesReferenceDNSID p ValidDNSIDMatchType.NameConstraint [] = true)
    ∧ (∀ p r, IsValidPresentedDNSID p = true →
       IsValidDNSID r ValidDNSIDMatchType.NameConstraint = true →
       r.length < p.length → r ≠ [] → r.head? ≠ some 46 →
       (PresentedDNSIDMatchesReferenceDNSID p ValidDNSIDMatchType.NameConstraint r = true ↔
        (p.drop (p.length - r.length - 1)).head? = some 46 ∧
        (p.drop (p.length - r.length)).map LocaleInsensitveToLower =
          r.map LocaleInsensitveToLower))
    ∧ (∀ p r, IsValidPresentedDNSID p = true →
       IsValidDNSID r ValidDNSIDMatchType.NameConstraint = true →
       r.length < p.length → r.head? = some 46 →
       (PresentedDNSIDMatchesReferenceDNSID p ValidDNSIDMatchType.NameConstraint r = true ↔
        (p.drop (p.length - r.length)).map LocaleInsensitveToLower =
          r.map LocaleInsensitveToLower))
    ∧ (∀ rs, IsValidDNSID (46 :: rs) ValidDNSIDMatchType.NameConstraint = true →
       PresentedDNSIDMatchesReferenceDNSID rs ValidDNSIDMatchType.NameConstraint (46 :: rs)
         = false) := by
  refine ⟨fun p hp => ?_, fun p r hp hr hlen hne hdot => ?_, fun p r hp hr hlen hdot => ?_,
          fun rs hr => ?_⟩
  · rw [matcher_nc_eq p [] hp (by decide)]
    unfold dnsMatchNameConstraint
    have hplen : 0 < p.length := by
      cases hq : p with
      | nil => exact absurd hq (validPres_ne_nil p hp)
      | cons c cs => simp
    simp [hplen]
  · rw [matcher_nc_eq p r hp hr]
    unfold dnsMatchNameConstraint
    have hrlen : r.length ≠ 0 := by
      intro h0
      exact hne (List.length_eq_zero.mp h0)
    rw [if_pos hlen, if_neg hrlen, if_neg hdot]
    have hklt : p.length - r.length - 1 < p.length := by omega
    cases hdk : p.drop (p.length - r.length - 1) with
    | nil =>
      have := List.drop_eq_nil_iff.mp hdk
      omega
    | cons b rest =>
      by_cases hb : b = 46
      · subst hb
        have hrest : p.drop (p.length - r.length) = rest := by
          have hsucc : p.length - r.length = (p.length - r.length - 1) + 1 := by omega
          rw [hsucc, ← List.drop_drop, hdk]
          simp
        have hiff := dnsMatchTail_drop_nc p r (p.length - r.length) hp (by omega) (by omega)
        rw [hrest] at hiff
        show dnsMatchTail rest r ValidDNSIDMatchType.NameConstraint = true ↔ _
        rw [hiff, hrest]
        constructor
        · intro hmap
          exact ⟨rfl, hmap⟩
        · rintro ⟨_, hmap⟩
          exact hmap
      · constructor
        · intro h
          split at h
          · rename_i heq
            injection heq with hb2 _
            exact absurd hb2 hb
          · exact absurd h (by simp)
        · rintro ⟨hhead, _⟩
          simp only [List.head?_cons, Option.some.injEq] at hhead
          exact absurd hhead hb
  · rw [matcher_nc_eq p r hp hr]
    unfold dnsMatchNameConstraint
    have hrne : r ≠ [] := by
      intro h0
      rw [h0] at hdot
      exact absurd hdot (by simp)
    have hrlen : r.length ≠ 0 := by
      intro h0
      exact hrne (List.length_eq_zero.mp h0)
    rw [if_pos hlen, if_neg hrlen, if_pos hdot]
    exact dnsMatchTail_drop_nc p r (p.length - r.length) hp (by omega) (by omega)
  · obtain ⟨hrs_ne, hrs46, hrs42⟩ := validNC_dot_elim rs hr
    by_cases hp : IsValidPresentedDNSID rs = true
    · rw [matcher_nc_eq rs (46 :: rs) hp hr]
      unfold dnsMatchNameConstraint
      have hlen2 : ¬ (46 :: rs).length < rs.length := by simp
      rw [if_neg hlen2]
      obtain ⟨c, cs, rfl⟩ := List.exists_cons_of_ne_nil hrs_ne
      have hc46 : c ≠ 46 := by simpa using hrs46
      have hc42 : c ≠ 42 := by simpa using hrs42
      unfold dnsMatchTail
      split
      · next p2 ps heq =>
        injection heq with h1 h2
        exact absurd h1 hc42
      · have hcnd : LocaleInsensitveToLower c ≠ LocaleInsensitveToLower 46 := by
          have h46 : LocaleInsensitveToLower 46 = 46 := by decide
          rw [h46]
          intro hx
          exact hc46 (lower_eq_dot c hx)
        rw [dnsMatchLoop, if_pos hcnd]
    · unfold PresentedDNSIDMatchesReferenceDNSID
      rw [if_pos hp]

/-- Witness for C3 at concrete inputs: presented a.b against the empty
constraint, the constraint b, the constraint .b, and presented a.b against
the constraint .a.b. -/
theorem c3_witness :
    PresentedDNSIDMatchesReferenceDNSID [97, 46, 98] ValidDNSIDMatchType.NameConstraint [] = true
    ∧ (PresentedDNSIDMatchesReferenceDNSID [97, 46, 98] ValidDNSIDMatchType.NameConstraint [98]
         = true ↔
       (([97, 46, 98] : List Nat).drop
          (([97, 46, 98] : List Nat).length - ([98] : List Nat).length - 1)).head? = some 46 ∧
       (([97, 46, 98] : List Nat).drop
          (([97, 46, 98] : List Nat).length - ([98] : List Nat).length)).map
           LocaleInsensitveToLower = ([98] : List Nat).map LocaleInsensitveToLower)
    ∧ (PresentedDNSIDMatchesReferenceDNSID [97, 46, 98] ValidDNSIDMatchType.NameConstraint
         [46, 98] = true ↔
       (([97, 46, 98] : List Nat).drop
          (([97, 46, 98] : List Nat).length - ([46, 98] : List Nat).length)).map
           LocaleInsensitveToLower = ([46, 98] : List Nat).map LocaleInsensitveToLower)
    ∧ PresentedDNSIDMatchesReferenceDNSID [97, 46, 98] ValidDNSIDMatchType.NameConstraint
        [46, 97, 46, 98] = false :=
  ⟨c3_name_constraint_dns_matching.1 [97, 46, 98] (by decide),
   c3_name_constraint_dns_matching.2.1 [97, 46, 98] [98] (by decide) (by decide) (by decide)
     (by decide) (by decide),
   c3_name_constraint_dns_matching.2.2.1 [97, 46, 98] [46, 98] (by decide) (by decide)
     (by decide) (by decide),
   c3_name_constraint_dns_matching.2.2.2 [97, 46, 98] (by decide)⟩
